import Mathlib

/-!
Verification development for the flightsearch aggregation pipeline.

This file gives a shallow embedding, in Lean 4, of the parts of the Go
program relevant to the checked claims: the canonical data model
(internal/models), the filter/rank/sort stage (internal/filter,
internal/ranking), the per-provider retry loop and result aggregation
(internal/aggregator), the cache key derivation (internal/cache), the
time parsing and zone resolution (internal/timezone), and the provider
adapters (internal/providers).

Modelling conventions:
  - Go float64 values (prices, scores, baggage weights, fractional hours)
    are modelled as exact rationals; Go's math.Round (half away from zero)
    is modelled exactly on the rationals.
  - Go int values are modelled as unbounded Int with Go's truncated
    division and remainder where the code divides.
  - Go string case operations (strings.ToLower, strings.EqualFold) are
    modelled on ASCII, which covers every string the program compares
    (airport codes, airline codes, sort keys, zone names).
  - sort.Slice is modelled by its documented contract: the result is a
    permutation of the input that is sorted with respect to the supplied
    less function; the documentation explicitly states that the ordering
    of equal elements is NOT guaranteed to be stable.  The stage is hence
    embedded as a relation between input and output.
  - Concurrency (goroutine fan-out, channel drain, context deadlines) is
    modelled by explicit oracles: the arrival order of provider results
    and the outcome of each cancellable wait are taken as parameters.
-/

namespace Flightsearch

/-- ASCII lower-casing of a character, as Go's strings.ToLower acts on the
ASCII range (all strings compared by the program are ASCII). -/
def asciiLower (c : Char) : Char :=
  if 'A' ≤ c ∧ c ≤ 'Z' then Char.ofNat (c.toNat + 32) else c

/-- ASCII lower-casing of a string (model of strings.ToLower on the ASCII
strings the program compares). -/
def toLowerGo (s : String) : String :=
  String.mk (s.data.map asciiLower)

/-- Model of strings.EqualFold restricted to ASCII: case-insensitive
equality. -/
def eqFold (a b : String) : Bool :=
  toLowerGo a == toLowerGo b

/-- A Go time.Time as produced by time.Parse / time.ParseInLocation in this
program: a wall-clock reading together with the fixed zone it is expressed
in.  `offset` is the zone offset east of UTC in seconds; `zoneName` is the
zone's display name ("UTC", "WIB", "WITA", "WIT", or "" for a numeric
offset zone). -/
structure GoTime where
  year   : Int
  month  : Int
  day    : Int
  hour   : Int
  minute : Int
  second : Int
  nsec   : Int
  offset : Int
  zoneName : String
  deriving DecidableEq, Repr

/-- Days from the civil epoch 1970-01-01 (Howard Hinnant's algorithm),
used to compare instants and to re-express a wall clock in another zone. -/
def daysFromCivil (y m d : Int) : Int :=
  let y := if m ≤ 2 then y - 1 else y
  let era := (if 0 ≤ y then y else y - 399).ediv 400
  let yoe := y - era * 400
  let mp  := (m + 9).emod 12
  let doy := (153 * mp + 2).ediv 5 + d - 1
  let doe := yoe * 365 + yoe.ediv 4 - yoe.ediv 100 + doy
  era * 146097 + doe - 719468

/-- Civil date from days since 1970-01-01 (inverse of `daysFromCivil`). -/
def civilFromDays (z : Int) : Int × Int × Int :=
  let z := z + 719468
  let era := (if 0 ≤ z then z else z - 146096).ediv 146097
  let doe := z - era * 146097
  let yoe := (doe - doe.ediv 1460 + doe.ediv 36524 - doe.ediv 146096).ediv 365
  let y := yoe + era * 400
  let doy := doe - (365 * yoe + yoe.ediv 4 - yoe.ediv 100)
  let mp := (5 * doy + 2).ediv 153
  let d := doy - (153 * mp + 2).ediv 5 + 1
  let m := if mp < 10 then mp + 3 else mp - 9
  (if mp < 10 then y else y + 1, m, d)

/-- The absolute time of a GoTime in seconds since the Unix epoch
(wall-clock reading minus the zone offset). -/
def GoTime.unixSec (t : GoTime) : Int :=
  daysFromCivil t.year t.month t.day * 86400
    + t.hour * 3600 + t.minute * 60 + t.second - t.offset

/-- Model of Go time.Time.Before: instant comparison (seconds, then
nanoseconds). -/
def GoTime.before (a b : GoTime) : Bool :=
  a.unixSec < b.unixSec ∨ (a.unixSec = b.unixSec ∧ a.nsec < b.nsec)

/-- Model of Go time.Time.After. -/
def GoTime.after (a b : GoTime) : Bool :=
  GoTime.before b a

/-- A fixed-offset zone as produced by time.FixedZone: a name and an
offset east of UTC in seconds. -/
structure GoLocation where
  name   : String
  offset : Int
  deriving DecidableEq, Repr

/-- Model of time.Time.In for the fixed-offset zones of this program:
same instant, wall clock re-derived in the target zone. -/
def GoTime.inLoc (t : GoTime) (loc : GoLocation) : GoTime :=
  let u := t.unixSec + loc.offset
  let days := u.ediv 86400
  let rem := u.emod 86400
  let (y, m, d) := civilFromDays days
  { year := y, month := m, day := d,
    hour := rem.ediv 3600, minute := (rem.emod 3600).ediv 60,
    second := rem.emod 60, nsec := t.nsec,
    offset := loc.offset, zoneName := loc.name }

/-- models.Airline. -/
structure Airline where
  code : String
  name : String
  deriving DecidableEq, Repr

/-- models.Location (one endpoint of a flight). -/
structure Location where
  airport  : String
  city     : String
  terminal : Option String
  time     : GoTime
  timezone : String
  deriving DecidableEq, Repr

/-- models.Duration. -/
structure Duration where
  hours        : Int
  minutes      : Int
  totalMinutes : Int
  deriving DecidableEq, Repr

/-- models.Layover. -/
structure Layover where
  airport  : String
  city     : String
  duration : Int
  deriving DecidableEq, Repr

/-- models.Price; the float64 amount is modelled as an exact rational. -/
structure Price where
  amount    : ℚ
  currency  : String
  formatted : String
  deriving DecidableEq, Repr

/-- models.Baggage. -/
structure Baggage where
  cabinKg   : ℚ
  checkedKg : ℚ
  deriving DecidableEq, Repr

/-- models.Flight, the canonical record every adapter produces. -/
structure Flight where
  id             : String
  provider       : String
  airline        : Airline
  flightNumber   : String
  departure      : Location
  arrival        : Location
  duration       : Duration
  stops          : Int
  layovers       : List Layover
  price          : Price
  availableSeats : Int
  cabinClass     : String
  aircraft       : Option String
  amenities      : List String
  baggage        : Baggage
  bestValueScore : ℚ
  deriving DecidableEq, Repr

/-- models.SearchFilters; nil pointers become `none`. -/
structure SearchFilters where
  priceMin         : Option ℚ
  priceMax         : Option ℚ
  maxStops         : Option Int
  airlines         : List String
  departureTimeMin : Option String
  departureTimeMax : Option String
  arrivalTimeMin   : Option String
  arrivalTimeMax   : Option String
  maxDuration      : Option Int
  deriving DecidableEq, Repr

/-- models.SearchRequest. -/
structure SearchRequest where
  origin        : String
  destination   : String
  departureDate : String
  returnDate    : Option String
  passengers    : Int
  cabinClass    : String
  filters       : Option SearchFilters
  sortBy        : String
  sortOrder     : String
  deriving DecidableEq, Repr

/-- Parse exactly two decimal digits from the front of a character list. -/
def digits2 : List Char → Option (Int × List Char)
  | c1 :: c2 :: rest =>
    if c1.isDigit ∧ c2.isDigit then
      some ((c1.toNat - 48 : Int) * 10 + (c2.toNat - 48 : Int), rest)
    else none
  | _ => none

/-- Parse one or two decimal digits (Go's getnum with fixed = false, as
used for the "15" hour token). -/
def digits12 : List Char → Option (Int × List Char)
  | c1 :: c2 :: rest =>
    if c1.isDigit then
      if c2.isDigit then some ((c1.toNat - 48 : Int) * 10 + (c2.toNat - 48 : Int), rest)
      else some ((c1.toNat - 48 : Int), c2 :: rest)
    else none
  | [c1] => if c1.isDigit then some ((c1.toNat - 48 : Int), []) else none
  | [] => none

/-- Model of filter.parseTimeOfDay: Go time.Parse with layout "15:04"
(one-or-two-digit hour below 24, colon, two-digit minute below 60, end of
input), returning the minute of day. -/
def parseTimeOfDay (s : String) : Option Int := do
  let (h, rest) ← digits12 s.data
  if h ≥ 24 then none else
  match rest with
  | ':' :: rest =>
    let (m, rest) ← digits2 rest
    if m ≥ 60 then none else
    match rest with
    | [] => some (h * 60 + m)
    | _ => none
  | _ => none

/-- Wall-clock minute of day of a time value, as the filter computes it
(Time.Hour()*60 + Time.Minute()). -/
def GoTime.minuteOfDay (t : GoTime) : Int :=
  t.hour * 60 + t.minute

/-- filter.matchesFilters: a flight passes iff every declared predicate
matches; an undeclared predicate, or one whose value fails to parse, is a
no-op. -/
def matchesFilters (f : Flight) (filters : SearchFilters) : Bool :=
  if filters.priceMin.any (fun p => decide (f.price.amount < p)) then false
  else if filters.priceMax.any (fun p => decide (f.price.amount > p)) then false
  else if filters.maxStops.any (fun m => decide (f.stops > m)) then false
  else if filters.airlines.length > 0 ∧ ¬ filters.airlines.any (fun a => eqFold f.airline.code a) then false
  else if filters.departureTimeMin.any (fun s =>
      (parseTimeOfDay s).any (fun minTime => decide (f.departure.time.minuteOfDay < minTime))) then false
  else if filters.departureTimeMax.any (fun s =>
      (parseTimeOfDay s).any (fun maxTime => decide (f.departure.time.minuteOfDay > maxTime))) then false
  else if filters.arrivalTimeMin.any (fun s =>
      (parseTimeOfDay s).any (fun minTime => decide (f.arrival.time.minuteOfDay < minTime))) then false
  else if filters.arrivalTimeMax.any (fun s =>
      (parseTimeOfDay s).any (fun maxTime => decide (f.arrival.time.minuteOfDay > maxTime))) then false
  else if filters.maxDuration.any (fun m => decide (f.duration.totalMinutes > m)) then false
  else true

/-- filter.applyFilters: nil filters return the input list unchanged;
otherwise the flights matching every predicate are collected in order. -/
def applyFilters (flights : List Flight) (filters : Option SearchFilters) : List Flight :=
  match filters with
  | none => flights
  | some fs => flights.filter (fun f => matchesFilters f fs)

/-- Go math.Round on an exact rational: round half away from zero to an
integer. -/
def goRoundAway (x : ℚ) : ℤ :=
  if 0 ≤ x then ⌊x + 1/2⌋ else -⌊-x + 1/2⌋

/-- Rounding to two decimals as the ranking does it:
math.Round(score*100)/100. -/
def round2 (x : ℚ) : ℚ :=
  (goRoundAway (x * 100) : ℚ) / 100

/-- ranking.findMaxPrice: maximum price amount, starting from 0.0. -/
def findMaxPrice (flights : List Flight) : ℚ :=
  flights.foldl (fun acc f => if f.price.amount > acc then f.price.amount else acc) 0

/-- ranking.findMaxDuration: maximum total minutes as a float, starting
from 0.0. -/
def findMaxDuration (flights : List Flight) : ℚ :=
  flights.foldl
    (fun acc f => if (f.duration.totalMinutes : ℚ) > acc then (f.duration.totalMinutes : ℚ) else acc) 0

/-- ranking.CalculateBestValue: weighted composite of price, duration and
stop scores, rounded to two decimals; the price and duration terms are 0
unless the corresponding maximum is positive.  Lower is better. -/
def CalculateBestValue (flight : Flight) (maxPrice maxDuration : ℚ) : ℚ :=
  let priceScore := if maxPrice > 0 then flight.price.amount / maxPrice * 100 else 0
  let durationScore :=
    if maxDuration > 0 then (flight.duration.totalMinutes : ℚ) / maxDuration * 100 else 0
  let stopsScore := (flight.stops : ℚ) * 15
  let score := priceScore * 0.5 + durationScore * 0.3 + stopsScore * 0.2
  round2 score

/-- ranking.CalculateScores: on a non-empty list, compute the two maxima
over the whole list it is given and attach a best-value score to every
flight. -/
def CalculateScores (flights : List Flight) : List Flight :=
  if flights = [] then flights
  else
    let maxPrice := findMaxPrice flights
    let maxDuration := findMaxDuration flights
    flights.map (fun f => { f with bestValueScore := CalculateBestValue f maxPrice maxDuration })

/-- The less function handed to sort.Slice by filter.applySort for the
given sort key and order: the switch over strings.ToLower(sortBy), with
`ascending` derived from strings.ToLower(sortOrder) != "desc", and the
default case comparing price ascending regardless of the order. -/
def sortLess (sortBy sortOrder : String) (a b : Flight) : Bool :=
  let ascending := toLowerGo sortOrder ≠ "desc"
  match toLowerGo sortBy with
  | "price" =>
    if ascending then decide (a.price.amount < b.price.amount)
    else decide (a.price.amount > b.price.amount)
  | "duration" =>
    if ascending then decide (a.duration.totalMinutes < b.duration.totalMinutes)
    else decide (a.duration.totalMinutes > b.duration.totalMinutes)
  | "departure" =>
    if ascending then a.departure.time.before b.departure.time
    else a.departure.time.after b.departure.time
  | "arrival" =>
    if ascending then a.arrival.time.before b.arrival.time
    else a.arrival.time.after b.arrival.time
  | "best_value" =>
    if ascending then decide (a.bestValueScore < b.bestValueScore)
    else decide (a.bestValueScore > b.bestValueScore)
  | "stops" =>
    if ascending then decide (a.stops < b.stops)
    else decide (a.stops > b.stops)
  | _ => decide (a.price.amount < b.price.amount)

/-- A list is sorted for a Go less function when no earlier element is
strictly greater than a later one. -/
def sortedByLess (less : Flight → Flight → Bool) (l : List Flight) : Prop :=
  l.Pairwise (fun a b => less b a = false)

/-- filter.applySort, embedded as the contract of sort.Slice: the output
is a permutation of the input that is sorted with respect to the selected
less function.  sort.Slice's documentation guarantees exactly this and
explicitly does NOT guarantee stability, so the stage is a relation, not a
function, between input and output. -/
def applySortRel (flights : List Flight) (sortBy sortOrder : String) (out : List Flight) : Prop :=
  out.Perm flights ∧ sortedByLess (sortLess sortBy sortOrder) out

/-- filter.Apply: filter, then rank when sortBy == "best_value" (exact
comparison, as in the source), then sort.  Relational because of the sort
stage. -/
def ApplyRel (flights : List Flight) (filters : Option SearchFilters)
    (sortBy sortOrder : String) (out : List Flight) : Prop :=
  applySortRel
    (if sortBy == "best_value" then CalculateScores (applyFilters flights filters)
      else applyFilters flights filters)
    sortBy sortOrder out

/-- aggregator.Result. -/
structure AggResult where
  flights            : List Flight
  providersQueried   : Int
  providersSucceeded : Int
  providersFailed    : Int
  failedProviders    : List String
  deriving DecidableEq, Repr

/-- One step of the result-channel drain in aggregator.Search: a failed
provider increments the failure count and is appended to the failed list;
a successful one increments the success count and has its flights appended
to the shared list. -/
def aggStep (acc : AggResult) (pr : String × Except String (List Flight)) : AggResult :=
  match pr.2 with
  | .error _ =>
    { acc with providersFailed := acc.providersFailed + 1,
               failedProviders := acc.failedProviders ++ [pr.1] }
  | .ok fl =>
    { acc with providersSucceeded := acc.providersSucceeded + 1,
               flights := acc.flights ++ fl }

/-- aggregator.Search, embedded over the drained result channel: each
worker emits exactly one (provider, outcome) pair, `arrivals` lists them
in arrival order, and the drain folds them into the result.  The Go
function ends with `return result, nil`: the error component of its return
value is always nil, which the second component records. -/
def Aggregator.Search (arrivals : List (String × Except String (List Flight))) :
    AggResult × Option String :=
  (arrivals.foldl aggStep
    { flights := [], providersQueried := arrivals.length,
      providersSucceeded := 0, providersFailed := 0, failedProviders := [] },
   none)

deriving instance DecidableEq for Except

/-- Oracles for one run of the per-provider retry loop: whether the
deadline context is observed as done at the top-of-loop check of a given
attempt, whether it fires during the backoff sleep before a given attempt,
and the outcome of the provider search on each attempt. -/
structure RetryEnv where
  doneAtCheck     : Nat → Bool
  doneDuringSleep : Nat → Bool
  search          : Nat → Except String (List Flight)
  ctxErr          : String

/-- Observable outcome of a retry-loop run: the returned value, the number
of provider invocations, and the completed backoff sleeps as
(attempt, delay) pairs. -/
structure RetryRun where
  value  : Except String (List Flight)
  calls  : Nat
  sleeps : List (Nat × Nat)
  deriving DecidableEq, Repr

/-- List indexing with default 0, as Go's RetryDelays[i] (total here; the
theorems carry the non-emptiness hypothesis under which Go's index is in
range). -/
def goIndex (D : List Nat) (i : Nat) : Nat :=
  D.getD i 0

/-- The delay index of aggregator.searchWithRetry for a retry attempt:
attempt-1 clamped to the last configured delay. -/
def delayIdxGo (delays : List Nat) (attempt : Nat) : Nat :=
  let i := attempt - 1
  if i ≥ delays.length then delays.length - 1 else i

/-- The body of aggregator.searchWithRetry from a given attempt on, with
`fuel` the number of loop iterations still allowed (the loop runs attempts
0..maxRetries).  Go indexes RetryDelays[delayIdx], which requires a
non-empty delay list; the embedding totalizes the lookup with default 0,
and the theorems carry the non-emptiness hypothesis. -/
def searchWithRetryAux (env : RetryEnv) (delays : List Nat) :
    Nat → Nat → String → Nat → List (Nat × Nat) → RetryRun
  | _, 0, lastErr, calls, sleeps => ⟨.error lastErr, calls, sleeps⟩
  | attempt, fuel + 1, _lastErr, calls, sleeps =>
    if env.doneAtCheck attempt then ⟨.error env.ctxErr, calls, sleeps⟩
    else if attempt > 0 then
      let d := goIndex delays (delayIdxGo delays attempt)
      if env.doneDuringSleep attempt then ⟨.error env.ctxErr, calls, sleeps⟩
      else
        match env.search attempt with
        | .ok fl => ⟨.ok fl, calls + 1, sleeps ++ [(attempt, d)]⟩
        | .error e =>
          searchWithRetryAux env delays (attempt + 1) fuel e (calls + 1) (sleeps ++ [(attempt, d)])
    else
      match env.search attempt with
      | .ok fl => ⟨.ok fl, calls + 1, sleeps⟩
      | .error e => searchWithRetryAux env delays (attempt + 1) fuel e (calls + 1) sleeps

/-- aggregator.searchWithRetry: attempts 0..maxRetries, an initial
last-error placeholder (Go's nil), no calls and no sleeps yet. -/
def searchWithRetry (maxRetries : Nat) (delays : List Nat) (env : RetryEnv) : RetryRun :=
  searchWithRetryAux env delays 0 (maxRetries + 1) "" 0 []

/-- A concrete wall-clock value for witnesses. -/
def mkTime (y mo d h mi : Int) (off : Int) (zn : String) : GoTime :=
  { year := y, month := mo, day := d, hour := h, minute := mi,
    second := 0, nsec := 0, offset := off, zoneName := zn }

/-- A concrete canonical flight for witnesses, varying in the fields the
pipeline inspects. -/
def mkFlight (id : String) (amount : ℚ) (tm : Int) (stops : Int) : Flight :=
  { id := id, provider := "garuda",
    airline := { code := "GA", name := "Garuda Indonesia" },
    flightNumber := "GA-400",
    departure := { airport := "CGK", city := "Jakarta", terminal := none,
                   time := mkTime 2025 12 15 8 0 25200 "WIB", timezone := "WIB" },
    arrival := { airport := "DPS", city := "Bali", terminal := none,
                 time := mkTime 2025 12 15 11 0 28800 "WITA", timezone := "WITA" },
    duration := { hours := tm.tdiv 60, minutes := tm.tmod 60, totalMinutes := tm },
    stops := stops, layovers := [],
    price := { amount := amount, currency := "IDR", formatted := "IDR" },
    availableSeats := 10, cabinClass := "economy", aircraft := none,
    amenities := [], baggage := { cabinKg := 7, checkedKg := 20 },
    bestValueScore := 0 }

/-- Claim C10: the filtering stage returns a subsequence of its input:
every output flight is an element of the input, multiplicities never
increase, relative order is preserved (all three captured by
List.Sublist), and absent filters return the input unchanged. -/
theorem C10_filter_returns_subsequence
    (flights : List Flight) (filters : Option SearchFilters) :
    (applyFilters flights filters).Sublist flights ∧
    (∀ f : Flight, (applyFilters flights filters).count f ≤ flights.count f) ∧
    (∀ f : Flight, f ∈ applyFilters flights filters → f ∈ flights) ∧
    applyFilters flights none = flights := by
  have hsub : (applyFilters flights filters).Sublist flights := by
    cases filters with
    | none => exact List.Sublist.refl _
    | some fs => exact List.filter_sublist _
  exact ⟨hsub, fun f => hsub.count_le f, fun f hf => hsub.subset hf, rfl⟩

/-- Concrete instantiation of the C10 theorem. -/
theorem C10_filter_returns_subsequence_witness :
    (applyFilters [mkFlight "a" 100 60 0] none).Sublist [mkFlight "a" 100 60 0] ∧
    applyFilters [mkFlight "a" 100 60 0] none = [mkFlight "a" 100 60 0] := by
  have h := C10_filter_returns_subsequence [mkFlight "a" 100 60 0] none
  exact ⟨h.1, h.2.2.2⟩

/-- The flights a drained arrival list contributes, in arrival order. -/
def okFlights (arrivals : List (String × Except String (List Flight))) : List Flight :=
  arrivals.flatMap (fun pr => match pr.2 with | .ok fl => fl | .error _ => [])

/-- The names of the failed providers of a drained arrival list, in
arrival order. -/
def errNames (arrivals : List (String × Except String (List Flight))) : List String :=
  (arrivals.filter (fun pr => ¬ pr.2.isOk)).map Prod.fst

/-- Characterization of the drain fold from an arbitrary accumulator. -/
theorem aggFold_spec (arrivals : List (String × Except String (List Flight)))
    (acc : AggResult) :
    arrivals.foldl aggStep acc =
      { flights := acc.flights ++ okFlights arrivals,
        providersQueried := acc.providersQueried,
        providersSucceeded :=
          acc.providersSucceeded + (arrivals.filter (fun pr => pr.2.isOk)).length,
        providersFailed :=
          acc.providersFailed + (arrivals.filter (fun pr => ¬ pr.2.isOk)).length,
        failedProviders := acc.failedProviders ++ errNames arrivals } := by
  induction arrivals generalizing acc with
  | nil => simp [okFlights, errNames]
  | cons pr rest ih =>
    obtain ⟨name, outcome⟩ := pr
    cases outcome with
    | ok fl =>
      simp only [List.foldl_cons, ih, aggStep, okFlights, errNames,
        List.flatMap_cons, List.filter_cons, Except.isOk]
      simp +arith [okFlights, errNames, Except.toBool, List.append_assoc]
      omega
    | error e =>
      simp only [List.foldl_cons, ih, aggStep, okFlights, errNames,
        List.flatMap_cons, List.filter_cons, Except.isOk]
      simp +arith [okFlights, errNames, Except.toBool, List.append_assoc]
      omega

/-- Claim C3: aggregator.Search never surfaces a whole-request error:
its error component is always nil, failed providers are recorded only in
the counts and the failed-provider list, and the successful providers'
flights are all returned.  (The function's only return statement is
`return result, nil`; in particular an overall error could only arise
from caller-context cancellation, which this function never converts into
a returned error.) -/
theorem C3_aggregator_partial_failure
    (arrivals : List (String × Except String (List Flight))) :
    (Aggregator.Search arrivals).2 = none ∧
    (Aggregator.Search arrivals).1.flights = okFlights arrivals ∧
    (Aggregator.Search arrivals).1.failedProviders = errNames arrivals ∧
    (Aggregator.Search arrivals).1.providersSucceeded =
      ((arrivals.filter (fun pr => pr.2.isOk)).length : Int) ∧
    (Aggregator.Search arrivals).1.providersFailed =
      ((arrivals.filter (fun pr => ¬ pr.2.isOk)).length : Int) ∧
    (Aggregator.Search arrivals).1.providersQueried = (arrivals.length : Int) := by
  unfold Aggregator.Search
  rw [aggFold_spec]
  simp

/-- With a non-empty delay list, the source's clamped index is
min(attempt-1, len-1). -/
theorem delayIdxGo_eq_min (D : List Nat) (hD : D ≠ []) (a : Nat) :
    delayIdxGo D a = min (a - 1) (D.length - 1) := by
  have hlen : 1 ≤ D.length := List.length_pos.mpr hD
  unfold delayIdxGo
  by_cases h : a - 1 ≥ D.length
  · simp only [h, if_true]
    omega
  · simp only [h, if_false]
    omega

/-- One-step unfolding of the retry loop body. -/
theorem retryAux_succ (env : RetryEnv) (D : List Nat) (attempt n : Nat)
    (lastErr : String) (calls : Nat) (sleeps : List (Nat × Nat)) :
    searchWithRetryAux env D attempt (n + 1) lastErr calls sleeps =
      if env.doneAtCheck attempt then ⟨.error env.ctxErr, calls, sleeps⟩
      else if attempt > 0 then
        if env.doneDuringSleep attempt then ⟨.error env.ctxErr, calls, sleeps⟩
        else
          match env.search attempt with
          | .ok fl => ⟨.ok fl, calls + 1, sleeps ++ [(attempt, goIndex D (delayIdxGo D attempt))]⟩
          | .error e =>
            searchWithRetryAux env D (attempt + 1) n e (calls + 1)
              (sleeps ++ [(attempt, goIndex D (delayIdxGo D attempt))])
      else
        match env.search attempt with
        | .ok fl => ⟨.ok fl, calls + 1, sleeps⟩
        | .error e => searchWithRetryAux env D (attempt + 1) n e (calls + 1) sleeps := rfl

/-- The retry loop makes at most `fuel` further provider calls. -/
theorem retry_calls_le (env : RetryEnv) (D : List Nat) :
    ∀ fuel attempt lastErr calls sleeps,
      (searchWithRetryAux env D attempt fuel lastErr calls sleeps).calls ≤ calls + fuel := by
  intro fuel
  induction fuel with
  | zero => intro attempt lastErr calls sleeps; simp [searchWithRetryAux]
  | succ n ih =>
    intro attempt lastErr calls sleeps
    rw [retryAux_succ]
    by_cases h1 : env.doneAtCheck attempt
    · simp [h1]
    · by_cases h2 : attempt > 0
      · by_cases h3 : env.doneDuringSleep attempt
        · simp [h1, h2, h3]
        · cases hs : env.search attempt with
          | ok fl => simp [h1, h2, h3, hs]
          | error e =>
            simp [h1, h2, h3, hs]
            exact le_trans (ih _ _ _ _) (by omega)
      · cases hs : env.search attempt with
        | ok fl => simp [h1, h2, hs]
        | error e =>
          simp [h1, h2, hs]
          exact le_trans (ih _ _ _ _) (by omega)

/-- Sleeps already recorded persist through the rest of the loop. -/
theorem retry_sleeps_mono (env : RetryEnv) (D : List Nat) :
    ∀ fuel attempt lastErr calls sleeps x, x ∈ sleeps →
      x ∈ (searchWithRetryAux env D attempt fuel lastErr calls sleeps).sleeps := by
  intro fuel
  induction fuel with
  | zero => intro attempt lastErr calls sleeps x hx; simpa [searchWithRetryAux] using hx
  | succ n ih =>
    intro attempt lastErr calls sleeps x hx
    rw [retryAux_succ]
    by_cases h1 : env.doneAtCheck attempt
    · simpa [h1] using hx
    · by_cases h2 : attempt > 0
      · by_cases h3 : env.doneDuringSleep attempt
        · simpa [h1, h2, h3] using hx
        · cases hs : env.search attempt with
          | ok fl =>
            simp [h1, h2, h3, hs, List.mem_append]
            exact Or.inl hx
          | error e =>
            simp only [h1, h2, h3, hs, if_pos, if_neg, Bool.false_eq_true, if_false, if_true]
            exact ih (attempt + 1) e (calls + 1) _ x (by simp [List.mem_append]; exact Or.inl hx)
      · cases hs : env.search attempt with
        | ok fl => simpa [h1, h2, hs] using hx
        | error e =>
          simp only [h1, h2, hs, if_neg, Bool.false_eq_true, if_false]
          exact ih (attempt + 1) e (calls + 1) sleeps x hx

/-- Every sleep the loop adds belongs to a retry attempt in range and has
the clamped configured delay. -/
theorem retry_sleeps_sound (env : RetryEnv) (D : List Nat) :
    ∀ fuel attempt lastErr calls sleeps a d,
      (a, d) ∈ (searchWithRetryAux env D attempt fuel lastErr calls sleeps).sleeps →
      (a, d) ∈ sleeps ∨
        (1 ≤ a ∧ attempt ≤ a ∧ a < attempt + fuel ∧ d = goIndex D (delayIdxGo D a)) := by
  intro fuel
  induction fuel with
  | zero =>
    intro attempt lastErr calls sleeps a d h
    exact Or.inl (by simpa [searchWithRetryAux] using h)
  | succ n ih =>
    intro attempt lastErr calls sleeps a d h
    rw [retryAux_succ] at h
    by_cases h1 : env.doneAtCheck attempt
    · simp [h1] at h; exact Or.inl h
    · by_cases h2 : attempt > 0
      · by_cases h3 : env.doneDuringSleep attempt
        · simp [h1, h2, h3] at h; exact Or.inl h
        · cases hs : env.search attempt with
          | ok fl =>
            simp [h1, h2, h3, hs, List.mem_append] at h
            rcases h with h | ⟨ha, hd⟩
            · exact Or.inl h
            · subst ha
              exact Or.inr ⟨by omega, by omega, by omega, hd⟩
          | error e =>
            simp only [h1, h2, h3, hs, if_pos, if_neg, Bool.false_eq_true, if_false, if_true] at h
            rcases ih (attempt + 1) e (calls + 1) _ a d h with h' | h'
            · rcases List.mem_append.mp h' with h'' | h''
              · exact Or.inl h''
              · simp at h''
                rcases h'' with ⟨ha, hd⟩
                subst ha
                exact Or.inr ⟨by omega, by omega, by omega, hd⟩
            · exact Or.inr ⟨h'.1, by omega, by omega, h'.2.2.2⟩
      · cases hs : env.search attempt with
        | ok fl => simp [h1, h2, hs] at h; exact Or.inl h
        | error e =>
          simp only [h1, h2, hs, if_neg, Bool.false_eq_true, if_false] at h
          rcases ih (attempt + 1) e (calls + 1) sleeps a d h with h' | h'
          · exact Or.inl h'
          · exact Or.inr ⟨h'.1, by omega, by omega, h'.2.2.2⟩

/-- A successful retry-loop run returns the outcome of the first
successful attempt: every earlier attempt failed, the call count is
exact, and a backoff sleep was completed before every retry attempt up to
the successful one. -/
theorem retry_ok_spec (env : RetryEnv) (D : List Nat) :
    ∀ fuel attempt lastErr calls sleeps fl,
      (searchWithRetryAux env D attempt fuel lastErr calls sleeps).value = .ok fl →
      ∃ k, attempt ≤ k ∧ k < attempt + fuel ∧ env.search k = .ok fl ∧
        (searchWithRetryAux env D attempt fuel lastErr calls sleeps).calls
          = calls + (k - attempt) + 1 ∧
        (∀ i, attempt ≤ i → i < k → ∃ e, env.search i = .error e) ∧
        (∀ a, 1 ≤ a → attempt ≤ a → a ≤ k →
          (a, goIndex D (delayIdxGo D a))
            ∈ (searchWithRetryAux env D attempt fuel lastErr calls sleeps).sleeps) := by
  intro fuel
  induction fuel with
  | zero =>
    intro attempt lastErr calls sleeps fl h
    simp [searchWithRetryAux] at h
  | succ n ih =>
    intro attempt lastErr calls sleeps fl h
    rw [retryAux_succ] at h ⊢
    by_cases h1 : env.doneAtCheck attempt
    · simp [h1] at h
    · by_cases h2 : attempt > 0
      · by_cases h3 : env.doneDuringSleep attempt
        · simp [h1, h2, h3] at h
        · cases hs : env.search attempt with
          | ok fl0 =>
            simp [h1, h2, h3, hs] at h ⊢
            subst h
            refine ⟨attempt, le_refl _, by omega, hs, by omega, ?_, ?_⟩
            · intro i hi1 hi2; omega
            · intro a ha1 ha2 ha3
              have : a = attempt := by omega
              subst this
              simp
          | error e =>
            simp [h1, h2, h3, hs] at h ⊢
            rcases ih (attempt + 1) e (calls + 1)
                (sleeps ++ [(attempt, goIndex D (delayIdxGo D attempt))]) fl h with
              ⟨k, hk1, hk2, hk3, hk4, hk5, hk6⟩
            refine ⟨k, by omega, by omega, hk3, by omega, ?_, ?_⟩
            · intro i hi1 hi2
              rcases Nat.eq_or_lt_of_le hi1 with rfl | hi
              · exact ⟨e, hs⟩
              · exact hk5 i (by omega) hi2
            · intro a ha1 ha2 ha3
              rcases Nat.eq_or_lt_of_le ha2 with heq | ha
              · exact retry_sleeps_mono env D n (attempt + 1) e (calls + 1) _
                  (a, goIndex D (delayIdxGo D a)) (by simp [← heq])
              · exact hk6 a ha1 (by omega) ha3
      · have hatt : attempt = 0 := by omega
        cases hs : env.search attempt with
        | ok fl0 =>
          simp [h1, h2, hs] at h ⊢
          subst h
          refine ⟨attempt, le_refl _, by omega, hs, by omega, ?_, ?_⟩
          · intro i hi1 hi2; omega
          · intro a ha1 ha2 ha3; omega
        | error e =>
          simp [h1, h2, hs] at h ⊢
          rcases ih (attempt + 1) e (calls + 1) sleeps fl h with
            ⟨k, hk1, hk2, hk3, hk4, hk5, hk6⟩
          refine ⟨k, by omega, by omega, hk3, by omega, ?_, ?_⟩
          · intro i hi1 hi2
            rcases Nat.eq_or_lt_of_le hi1 with rfl | hi
            · exact ⟨e, hs⟩
            · exact hk5 i (by omega) hi2
          · intro a ha1 ha2 ha3
            exact hk6 a ha1 (by omega) ha3

/-- When no cancellation is observed and every attempt in range fails, the
loop returns the error of the last attempt. -/
theorem retry_allfail_spec (env : RetryEnv) (D : List Nat) :
    ∀ fuel, 0 < fuel → ∀ attempt lastErr calls sleeps,
      (∀ a, attempt ≤ a → a < attempt + fuel →
        env.doneAtCheck a = false ∧ env.doneDuringSleep a = false ∧
          ∃ e', env.search a = .error e') →
      ∀ e, env.search (attempt + fuel - 1) = .error e →
      (searchWithRetryAux env D attempt fuel lastErr calls sleeps).value = .error e := by
  intro fuel
  induction fuel with
  | zero => intro h; omega
  | succ n ih =>
    intro _ attempt lastErr calls sleeps hall e hlast
    obtain ⟨hc, hsl, e0, hs0⟩ := hall attempt (le_refl _) (by omega)
    rw [retryAux_succ]
    cases n with
    | zero =>
      have he : e0 = e := by
        have : env.search attempt = .error e := by simpa using hlast
        rw [this] at hs0
        exact (Except.error.injEq _ _ ▸ hs0.symm :)
      subst he
      by_cases h2 : attempt > 0
      · simp [hc, hsl, h2, hs0, searchWithRetryAux]
      · simp [hc, hsl, h2, hs0, searchWithRetryAux]
    | succ m =>
      have hrec : ∀ lastErr2 calls2 sleeps2,
          (searchWithRetryAux env D (attempt + 1) (m + 1) lastErr2 calls2 sleeps2).value
            = .error e := by
        intro lastErr2 calls2 sleeps2
        apply ih (by omega)
        · intro a ha1 ha2
          exact hall a (by omega) (by omega)
        · have : attempt + 1 + (m + 1) - 1 = attempt + (m + 1 + 1) - 1 := by omega
          rw [this]
          exact hlast
      by_cases h2 : attempt > 0
      · simp [hc, hsl, h2, hs0]
        exact hrec _ _ _
      · simp [hc, hsl, h2, hs0]
        exact hrec _ _ _

/-- Claim C2: for max_retries = R and a non-empty delay list D, the
per-provider retry loop calls the provider at most R+1 times; a success is
returned immediately after the first successful attempt, every earlier
attempt having failed, with one completed backoff sleep of
D[min(a-1, len(D)-1)] before each executed retry attempt a > 0; every
recorded sleep has that attempt-indexed duration; when the deadline is
already expired at entry the loop returns the context's cancellation error
without invoking the provider; and when every attempt fails without
cancellation the loop returns the error of the final attempt. -/
theorem C2_retry_loop (R : Nat) (D : List Nat) (env : RetryEnv) (hD : D ≠ []) :
    (searchWithRetry R D env).calls ≤ R + 1 ∧
    (∀ fl, (searchWithRetry R D env).value = .ok fl →
      ∃ k, k ≤ R ∧ env.search k = .ok fl ∧ (searchWithRetry R D env).calls = k + 1 ∧
        (∀ i, i < k → ∃ e, env.search i = .error e) ∧
        (∀ a, 1 ≤ a → a ≤ k →
          (a, D.getD (min (a - 1) (D.length - 1)) 0) ∈ (searchWithRetry R D env).sleeps)) ∧
    (∀ a d, (a, d) ∈ (searchWithRetry R D env).sleeps →
      1 ≤ a ∧ a ≤ R ∧ d = D.getD (min (a - 1) (D.length - 1)) 0) ∧
    (env.doneAtCheck 0 = true →
      (searchWithRetry R D env).value = .error env.ctxErr ∧
        (searchWithRetry R D env).calls = 0) ∧
    ((∀ a, a ≤ R → env.doneAtCheck a = false ∧ env.doneDuringSleep a = false ∧
        ∃ e', env.search a = .error e') →
      ∀ e, env.search R = .error e → (searchWithRetry R D env).value = .error e) := by
  have hIdx : ∀ a : Nat, goIndex D (delayIdxGo D a) = D.getD (min (a - 1) (D.length - 1)) 0 := by
    intro a
    rw [goIndex, delayIdxGo_eq_min D hD a]
  refine ⟨?_, ?_, ?_, ?_, ?_⟩
  · have h := retry_calls_le env D (R + 1) 0 "" 0 []
    rw [searchWithRetry]
    omega
  · intro fl h
    rcases retry_ok_spec env D (R + 1) 0 "" 0 [] fl h with ⟨k, hk1, hk2, hk3, hk4, hk5, hk6⟩
    refine ⟨k, by omega, hk3, ?_, fun i hi => hk5 i (by omega) hi, ?_⟩
    · rw [searchWithRetry]
      omega
    · intro a ha1 ha2
      rw [← hIdx a]
      exact hk6 a ha1 (by omega) ha2
  · intro a d h
    rcases retry_sleeps_sound env D (R + 1) 0 "" 0 [] a d h with h' | h'
    · simp at h'
    · exact ⟨h'.1, by omega, by rw [← hIdx a]; exact h'.2.2.2⟩
  · intro h0
    constructor
    · rw [searchWithRetry, retryAux_succ]
      simp [h0]
    · rw [searchWithRetry, retryAux_succ]
      simp [h0]
  · intro hall e hlast
    have hlast' : env.search (0 + (R + 1) - 1) = .error e := by
      have : 0 + (R + 1) - 1 = R := by omega
      rw [this]
      exact hlast
    exact retry_allfail_spec env D (R + 1) (by omega) 0 "" 0 []
      (fun a _ ha2 => hall a (by omega)) e hlast'

/-- A concrete retry environment for the C2 witness: no cancellation, the
first attempt fails transiently, the second succeeds. -/
def envRetryW : RetryEnv :=
  { doneAtCheck := fun _ => false
    doneDuringSleep := fun _ => false
    search := fun n => if n = 0 then .error "temporary service unavailable" else .ok []
    ctxErr := "context deadline exceeded" }

/-- Concrete instantiation of the C2 theorem with R = 1 and delays
[100, 200]. -/
theorem C2_retry_loop_witness :
    ([100, 200] : List Nat) ≠ [] ∧ (searchWithRetry 1 [100, 200] envRetryW).calls ≤ 2 :=
  ⟨by decide, (C2_retry_loop 1 [100, 200] envRetryW (by decide)).1⟩

/-- The running maximum fold of the ranking stage dominates its seed and
every listed value. -/
theorem foldl_max_spec (val : Flight → ℚ) :
    ∀ (l : List Flight) (acc : ℚ),
      acc ≤ l.foldl (fun a f => if val f > a then val f else a) acc ∧
      ∀ f ∈ l, val f ≤ l.foldl (fun a f => if val f > a then val f else a) acc := by
  intro l
  induction l with
  | nil => intro acc; simp
  | cons x xs ih =>
    intro acc
    have hstep : acc ≤ (if val x > acc then val x else acc) := by
      split
      · exact le_of_lt (by assumption)
      · exact le_refl _
    have hx : val x ≤ (if val x > acc then val x else acc) := by
      split
      · exact le_refl _
      · exact le_of_not_lt (by assumption)
    refine ⟨le_trans hstep (ih _).1, ?_⟩
    intro f hf
    rcases List.mem_cons.mp hf with rfl | hf
    · exact le_trans hx (ih _).1
    · exact (ih _).2 f hf

/-- findMaxPrice is non-negative and bounds every price amount. -/
theorem findMaxPrice_spec (l : List Flight) :
    0 ≤ findMaxPrice l ∧ ∀ f ∈ l, f.price.amount ≤ findMaxPrice l :=
  foldl_max_spec (fun f => f.price.amount) l 0

/-- findMaxDuration is non-negative and bounds every total duration. -/
theorem findMaxDuration_spec (l : List Flight) :
    0 ≤ findMaxDuration l ∧ ∀ f ∈ l, (f.duration.totalMinutes : ℚ) ≤ findMaxDuration l :=
  foldl_max_spec (fun f => (f.duration.totalMinutes : ℚ)) l 0

/-- Every member of CalculateScores l is a member of l with its
best-value score replaced by the score computed against l's maxima. -/
theorem mem_CalculateScores (l : List Flight) (g : Flight) (hg : g ∈ CalculateScores l) :
    ∃ f ∈ l, g = { f with
      bestValueScore := CalculateBestValue f (findMaxPrice l) (findMaxDuration l) } := by
  unfold CalculateScores at hg
  split at hg
  · simp_all
  · rcases List.mem_map.mp hg with ⟨f, hf, rfl⟩
    exact ⟨f, hf, rfl⟩

/-- The best-value score of a flight does not depend on the score field
already stored on it. -/
theorem CalculateBestValue_update (f : Flight) (mp md x : ℚ) :
    CalculateBestValue { f with bestValueScore := x } mp md = CalculateBestValue f mp md := rfl

/-- For non-negative maxima, the computed best-value score matches the
specification's formula with its maxPrice = 0 / maxDuration = 0 guards. -/
theorem CalculateBestValue_formula (g : Flight) (mp md : ℚ) (hmp : 0 ≤ mp) (hmd : 0 ≤ md) :
    CalculateBestValue g mp md =
      round2 (0.5 * (if mp = 0 then 0 else 100 * g.price.amount / mp)
        + 0.3 * (if md = 0 then 0 else 100 * (g.duration.totalMinutes : ℚ) / md)
        + 0.2 * (15 * (g.stops : ℚ))) := by
  unfold CalculateBestValue round2
  rcases eq_or_lt_of_le hmp with h1 | h1 <;> rcases eq_or_lt_of_le hmd with h2 | h2
  · rw [if_neg (by rw [← h1]; exact lt_irrefl 0), if_neg (by rw [← h2]; exact lt_irrefl 0),
      if_pos h1.symm, if_pos h2.symm]
    ring_nf
  · rw [if_neg (by rw [← h1]; exact lt_irrefl 0), if_pos h2, if_pos h1.symm,
      if_neg (ne_of_gt h2)]
    ring_nf
  · rw [if_pos h1, if_neg (by rw [← h2]; exact lt_irrefl 0), if_neg (ne_of_gt h1),
      if_pos h2.symm]
    ring_nf
  · rw [if_pos h1, if_pos h2, if_neg (ne_of_gt h1), if_neg (ne_of_gt h2)]
    ring_nf

/-- Claim C1: with sort_by = best_value the pipeline filters first and
ranks over the filtered set: maxPrice and maxDuration bound exactly the
filtered flights' values, and every output flight's best_value_score is
0.5·(100·amount/maxPrice) + 0.3·(100·total_minutes/maxDuration)
+ 0.2·(15·stops), rounded to two decimals, with a zero term whenever the
corresponding maximum is zero. -/
theorem C1_best_value_ranks_filtered_set
    (flights : List Flight) (filters : Option SearchFilters) (sortOrder : String)
    (out : List Flight) (h : ApplyRel flights filters "best_value" sortOrder out) :
    (∀ f ∈ applyFilters flights filters,
      f.price.amount ≤ findMaxPrice (applyFilters flights filters)) ∧
    (∀ f ∈ applyFilters flights filters,
      (f.duration.totalMinutes : ℚ) ≤ findMaxDuration (applyFilters flights filters)) ∧
    (∀ g ∈ out, g.bestValueScore =
      round2 (0.5 * (if findMaxPrice (applyFilters flights filters) = 0 then 0
          else 100 * g.price.amount / findMaxPrice (applyFilters flights filters))
        + 0.3 * (if findMaxDuration (applyFilters flights filters) = 0 then 0
          else 100 * (g.duration.totalMinutes : ℚ)
            / findMaxDuration (applyFilters flights filters))
        + 0.2 * (15 * (g.stops : ℚ)))) := by
  have hr : applySortRel (CalculateScores (applyFilters flights filters))
      "best_value" sortOrder out := by
    unfold ApplyRel at h
    simpa using h
  refine ⟨(findMaxPrice_spec _).2, (findMaxDuration_spec _).2, ?_⟩
  intro g hg
  have hg2 : g ∈ CalculateScores (applyFilters flights filters) := hr.1.mem_iff.mp hg
  rcases mem_CalculateScores _ g hg2 with ⟨f, _, rfl⟩
  rw [show ({ f with bestValueScore :=
        (CalculateBestValue f (findMaxPrice (applyFilters flights filters))
          (findMaxDuration (applyFilters flights filters))) } : Flight).bestValueScore =
      CalculateBestValue ({ f with bestValueScore :=
        (CalculateBestValue f (findMaxPrice (applyFilters flights filters))
          (findMaxDuration (applyFilters flights filters))) } : Flight)
        (findMaxPrice (applyFilters flights filters))
        (findMaxDuration (applyFilters flights filters)) from
      (CalculateBestValue_update f _ _ _).symm]
  exact CalculateBestValue_formula _ _ _ (findMaxPrice_spec _).1 (findMaxDuration_spec _).1

/-- Two concrete flights for the C1 witness. -/
def wFlights : List Flight := [mkFlight "a" 100 60 0, mkFlight "b" 200 120 1]

/-- The C1 witness output: the scored filtered list (already sorted by
score). -/
def wOut : List Flight := CalculateScores wFlights

/-- The first witness flight with its computed score attached. -/
def g40 : Flight := { mkFlight "a" 100 60 0 with bestValueScore := 40 }

/-- The second witness flight with its computed score attached. -/
def g83 : Flight := { mkFlight "b" 200 120 1 with bestValueScore := 83 }

/-- The witness maxima evaluate over the two flights. -/
theorem wMaxima : findMaxPrice wFlights = 200 ∧ findMaxDuration wFlights = 120 := by
  constructor
  · show (if (200 : ℚ) > (if (100 : ℚ) > 0 then 100 else 0) then (200 : ℚ)
      else (if (100 : ℚ) > 0 then 100 else 0)) = 200
    norm_num
  · show (if (120 : ℚ) > (if (60 : ℚ) > 0 then 60 else 0) then (120 : ℚ)
      else (if (60 : ℚ) > 0 then 60 else 0)) = 120
    norm_num

/-- The witness scores evaluate to 40 and 83. -/
theorem wScores : CalculateBestValue (mkFlight "a" 100 60 0) 200 120 = 40 ∧
    CalculateBestValue (mkFlight "b" 200 120 1) 200 120 = 83 := by
  constructor
  · show round2 ((if (200 : ℚ) > 0 then (100 : ℚ) / 200 * 100 else 0) * 0.5
      + (if (120 : ℚ) > 0 then ((60 : ℚ)) / 120 * 100 else 0) * 0.3
      + ((0 : ℚ) * 15) * 0.2) = 40
    rw [if_pos (by norm_num), if_pos (by norm_num)]
    unfold round2 goRoundAway
    norm_num
  · show round2 ((if (200 : ℚ) > 0 then (200 : ℚ) / 200 * 100 else 0) * 0.5
      + (if (120 : ℚ) > 0 then ((120 : ℚ)) / 120 * 100 else 0) * 0.3
      + ((1 : ℚ) * 15) * 0.2) = 83
    rw [if_pos (by norm_num), if_pos (by norm_num)]
    unfold round2 goRoundAway
    norm_num

/-- The witness pipeline output is the two flights with scores 40 and 83. -/
theorem wOut_eq : wOut = [g40, g83] := by
  show (if wFlights = [] then wFlights
    else wFlights.map fun f => { f with bestValueScore :=
      (CalculateBestValue f (findMaxPrice wFlights) (findMaxDuration wFlights)) }) = [g40, g83]
  rw [if_neg (by decide), wMaxima.1, wMaxima.2]
  show [({ mkFlight "a" 100 60 0 with bestValueScore :=
      (CalculateBestValue (mkFlight "a" 100 60 0) 200 120) } : Flight),
    ({ mkFlight "b" 200 120 1 with bestValueScore :=
      (CalculateBestValue (mkFlight "b" 200 120 1) 200 120) } : Flight)] = [g40, g83]
  rw [wScores.1, wScores.2]
  rfl

/-- Concrete instantiation of the C1 theorem: the pipeline relation holds
for the scored list, and the first output flight's attached score matches
the formula with maxPrice = 200 and maxDuration = 120. -/
theorem C1_best_value_ranks_filtered_set_witness :
    ApplyRel wFlights none "best_value" "asc" wOut ∧
    g40.bestValueScore =
      round2 (0.5 * (if findMaxPrice (applyFilters wFlights none) = 0 then 0
          else 100 * g40.price.amount / findMaxPrice (applyFilters wFlights none))
        + 0.3 * (if findMaxDuration (applyFilters wFlights none) = 0 then 0
          else 100 * (g40.duration.totalMinutes : ℚ)
            / findMaxDuration (applyFilters wFlights none))
        + 0.2 * (15 * (g40.stops : ℚ))) := by
  have hA : ApplyRel wFlights none "best_value" "asc" wOut := by
    constructor
    · exact List.Perm.refl _
    · show sortedByLess _ wOut
      rw [wOut_eq]
      unfold sortedByLess
      refine List.Pairwise.cons ?_ (List.Pairwise.cons (by simp) List.Pairwise.nil)
      intro b hb
      rcases List.mem_cons.mp hb with rfl | hb
      · decide
      · simp at hb
  exact ⟨hA, (C1_best_value_ranks_filtered_set wFlights none "asc" wOut hA).2.2 g40
    (by rw [wOut_eq]; decide)⟩

/-- First flight of the C4 stability counterexample: price 100, no
stops. -/
def fP1 : Flight := mkFlight "p1" 100 60 0

/-- Second flight of the C4 stability counterexample: the same price 100
as fP1 but a distinct identity. -/
def fP2 : Flight := mkFlight "p2" 100 90 1

/-- Claim C4 counterexample: for the concrete input [fP1, fP2], whose two
flights carry the same price.amount, the embedded sort.Slice contract
(permutation sorted by the selected key, the guarantee the source's
sort.Slice call provides; stability is explicitly not guaranteed) admits
the output [fP2, fP1], which reverses the relative order of the two
equal-keyed flights.  The stage therefore does not return a stable
ordering of its input. -/
theorem C4_sort_stability_counterexample :
    applySortRel [fP1, fP2] "price" "asc" [fP2, fP1] ∧
    [fP2, fP1] ≠ [fP1, fP2] ∧
    fP1.price.amount = fP2.price.amount ∧ fP1 ≠ fP2 := by
  refine ⟨⟨by decide, ?_⟩, by decide, by decide, by decide⟩
  unfold sortedByLess
  decide

/-- Claim C4, amended: the sort stage returns a permutation of its input
that is sorted by the selected key (price by amount, duration by
total_minutes, departure/arrival by instant, best_value by score, stops by
count), sort_order desc inverting the comparison and an unrecognized key
defaulting to price ascending; stability is NOT guaranteed (the source
uses sort.Slice, not sort.SliceStable).  In particular, for sort_by=price
with sort_order=asc the output is non-decreasing in price.amount. -/
theorem C4_sort_contract (flights out : List Flight) (sortBy sortOrder : String)
    (h : applySortRel flights sortBy sortOrder out) :
    out.Perm flights ∧
    (toLowerGo sortBy = "price" → toLowerGo sortOrder ≠ "desc" →
      out.Pairwise (fun a b => a.price.amount ≤ b.price.amount)) ∧
    (toLowerGo sortBy = "price" → toLowerGo sortOrder = "desc" →
      out.Pairwise (fun a b => b.price.amount ≤ a.price.amount)) ∧
    (toLowerGo sortBy = "duration" → toLowerGo sortOrder ≠ "desc" →
      out.Pairwise (fun a b => a.duration.totalMinutes ≤ b.duration.totalMinutes)) ∧
    (toLowerGo sortBy = "duration" → toLowerGo sortOrder = "desc" →
      out.Pairwise (fun a b => b.duration.totalMinutes ≤ a.duration.totalMinutes)) ∧
    (toLowerGo sortBy = "departure" → toLowerGo sortOrder ≠ "desc" →
      out.Pairwise (fun a b => a.departure.time.unixSec ≤ b.departure.time.unixSec)) ∧
    (toLowerGo sortBy = "departure" → toLowerGo sortOrder = "desc" →
      out.Pairwise (fun a b => b.departure.time.unixSec ≤ a.departure.time.unixSec)) ∧
    (toLowerGo sortBy = "arrival" → toLowerGo sortOrder ≠ "desc" →
      out.Pairwise (fun a b => a.arrival.time.unixSec ≤ b.arrival.time.unixSec)) ∧
    (toLowerGo sortBy = "arrival" → toLowerGo sortOrder = "desc" →
      out.Pairwise (fun a b => b.arrival.time.unixSec ≤ a.arrival.time.unixSec)) ∧
    (toLowerGo sortBy = "best_value" → toLowerGo sortOrder ≠ "desc" →
      out.Pairwise (fun a b => a.bestValueScore ≤ b.bestValueScore)) ∧
    (toLowerGo sortBy = "best_value" → toLowerGo sortOrder = "desc" →
      out.Pairwise (fun a b => b.bestValueScore ≤ a.bestValueScore)) ∧
    (toLowerGo sortBy = "stops" → toLowerGo sortOrder ≠ "desc" →
      out.Pairwise (fun a b => a.stops ≤ b.stops)) ∧
    (toLowerGo sortBy = "stops" → toLowerGo sortOrder = "desc" →
      out.Pairwise (fun a b => b.stops ≤ a.stops)) ∧
    (toLowerGo sortBy ≠ "price" → toLowerGo sortBy ≠ "duration" →
      toLowerGo sortBy ≠ "departure" → toLowerGo sortBy ≠ "arrival" →
      toLowerGo sortBy ≠ "best_value" → toLowerGo sortBy ≠ "stops" →
      out.Pairwise (fun a b => a.price.amount ≤ b.price.amount)) := by
  obtain ⟨hperm, hsorted⟩ := h
  unfold sortedByLess at hsorted
  refine ⟨hperm, ?_, ?_, ?_, ?_, ?_, ?_, ?_, ?_, ?_, ?_, ?_, ?_, ?_⟩
  · intro hk ho
    refine hsorted.imp ?_
    intro a b hab
    simp [sortLess, hk, ho] at hab
    exact hab
  · intro hk ho
    refine hsorted.imp ?_
    intro a b hab
    simp [sortLess, hk, ho] at hab
    exact hab
  · intro hk ho
    refine hsorted.imp ?_
    intro a b hab
    simp [sortLess, hk, ho] at hab
    exact hab
  · intro hk ho
    refine hsorted.imp ?_
    intro a b hab
    simp [sortLess, hk, ho] at hab
    exact hab
  · intro hk ho
    refine hsorted.imp ?_
    intro a b hab
    simp [sortLess, hk, ho, GoTime.before] at hab
    exact hab.1
  · intro hk ho
    refine hsorted.imp ?_
    intro a b hab
    simp [sortLess, hk, ho, GoTime.after, GoTime.before] at hab
    exact hab.1
  · intro hk ho
    refine hsorted.imp ?_
    intro a b hab
    simp [sortLess, hk, ho, GoTime.before] at hab
    exact hab.1
  · intro hk ho
    refine hsorted.imp ?_
    intro a b hab
    simp [sortLess, hk, ho, GoTime.after, GoTime.before] at hab
    exact hab.1
  · intro hk ho
    refine hsorted.imp ?_
    intro a b hab
    simp [sortLess, hk, ho] at hab
    exact hab
  · intro hk ho
    refine hsorted.imp ?_
    intro a b hab
    simp [sortLess, hk, ho] at hab
    exact hab
  · intro hk ho
    refine hsorted.imp ?_
    intro a b hab
    simp [sortLess, hk, ho] at hab
    exact hab
  · intro hk ho
    refine hsorted.imp ?_
    intro a b hab
    simp [sortLess, hk, ho] at hab
    exact hab
  · intro h1 h2 h3 h4 h5 h6
    refine hsorted.imp ?_
    intro a b hab
    simp [sortLess, h1, h2, h3, h4, h5, h6] at hab
    exact hab

/-- Concrete instantiation of the amended C4 theorem: a two-element sorted
output for sort_by=price, sort_order=asc is a permutation of the input and
non-decreasing in price.amount. -/
theorem C4_sort_contract_witness :
    applySortRel [mkFlight "w2" 200 120 1, mkFlight "w1" 100 60 0] "price" "asc"
      [mkFlight "w1" 100 60 0, mkFlight "w2" 200 120 1] ∧
    ([mkFlight "w1" 100 60 0, mkFlight "w2" 200 120 1] : List Flight).Pairwise
      (fun a b => a.price.amount ≤ b.price.amount) := by
  have hrel : applySortRel [mkFlight "w2" 200 120 1, mkFlight "w1" 100 60 0] "price" "asc"
      [mkFlight "w1" 100 60 0, mkFlight "w2" 200 120 1] := by
    refine ⟨by decide, ?_⟩
    unfold sortedByLess
    decide
  exact ⟨hrel, (C4_sort_contract _ _ _ _ hrel).2.1 rfl (by decide)⟩

/-- models.SearchMetadata. -/
structure SearchMetadata where
  totalResults       : Int
  providersQueried   : Int
  providersSucceeded : Int
  providersFailed    : Int
  failedProviders    : List String
  searchTimeMs       : Int
  cacheHit           : Bool
  deriving DecidableEq, Repr

/-- models.SearchCriteria: the request echoed back in the response. -/
structure SearchCriteria where
  origin        : String
  destination   : String
  departureDate : String
  returnDate    : Option String
  passengers    : Int
  cabinClass    : String
  filters       : Option SearchFilters
  sortBy        : String
  sortOrder     : String
  deriving DecidableEq, Repr

/-- models.SearchResponse (one-way). -/
structure SearchResponse where
  searchCriteria : SearchCriteria
  metadata       : SearchMetadata
  flights        : List Flight
  deriving DecidableEq, Repr

/-- handler.buildSearchCriteria. -/
def buildSearchCriteria (req : SearchRequest) : SearchCriteria :=
  { origin := req.origin, destination := req.destination,
    departureDate := req.departureDate, returnDate := req.returnDate,
    passengers := req.passengers, cabinClass := req.cabinClass,
    filters := req.filters, sortBy := req.sortBy, sortOrder := req.sortOrder }

/-- The names of the providers cmd/server/main.go configures, in
initialization order; initializeProviders either returns exactly these
four or the process aborts. -/
def initializeProvidersNames : List String :=
  ["garuda", "lionair", "batikair", "airasia"]

/-- The cache-hit branch of handler.Search: the cached flights are
filtered/ranked/sorted and the response metadata is built with the literal
provider counts 4/4/0, no failed providers, and cache_hit true. -/
def SearchHandler.cacheHitResponse (req : SearchRequest) (filtered : List Flight)
    (elapsedMs : Int) : SearchResponse :=
  { searchCriteria := buildSearchCriteria req,
    metadata :=
      { totalResults := filtered.length, providersQueried := 4,
        providersSucceeded := 4, providersFailed := 0, failedProviders := [],
        searchTimeMs := elapsedMs, cacheHit := true },
    flights := filtered }

/-- Claim C9: on a cache hit the success response reports all configured
providers as queried and succeeded (both equal to the number of providers
initializeProviders configures), zero failed providers, an empty
failed-provider list, and cache_hit = true, for every request and every
filtered flight list. -/
theorem C9_cache_hit_metadata (req : SearchRequest) (filtered : List Flight)
    (elapsedMs : Int) :
    (SearchHandler.cacheHitResponse req filtered elapsedMs).metadata.providersQueried
        = (initializeProvidersNames.length : Int) ∧
    (SearchHandler.cacheHitResponse req filtered elapsedMs).metadata.providersSucceeded
        = (initializeProvidersNames.length : Int) ∧
    (SearchHandler.cacheHitResponse req filtered elapsedMs).metadata.providersFailed = 0 ∧
    (SearchHandler.cacheHitResponse req filtered elapsedMs).metadata.failedProviders = [] ∧
    (SearchHandler.cacheHitResponse req filtered elapsedMs).metadata.cacheHit = true := by
  refine ⟨?_, ?_, rfl, rfl, rfl⟩ <;> rfl

/-- Truncation to a 32-bit word. -/
def w32 (x : Nat) : Nat := x % 4294967296

/-- 32-bit right rotation. -/
def rotr32 (n x : Nat) : Nat := w32 ((x >>> n) ||| (x <<< (32 - n)))

/-- SHA-256 choice function (the complement taken as xor with 2^32-1). -/
def shaCh (x y z : Nat) : Nat := (x &&& y) ^^^ ((x ^^^ 4294967295) &&& z)

/-- SHA-256 majority function. -/
def shaMaj (x y z : Nat) : Nat := (x &&& y) ^^^ (x &&& z) ^^^ (y &&& z)

/-- SHA-256 big sigma 0. -/
def bigSigma0 (x : Nat) : Nat := rotr32 2 x ^^^ rotr32 13 x ^^^ rotr32 22 x

/-- SHA-256 big sigma 1. -/
def bigSigma1 (x : Nat) : Nat := rotr32 6 x ^^^ rotr32 11 x ^^^ rotr32 25 x

/-- SHA-256 small sigma 0. -/
def smallSigma0 (x : Nat) : Nat := rotr32 7 x ^^^ rotr32 18 x ^^^ (x >>> 3)

/-- SHA-256 small sigma 1. -/
def smallSigma1 (x : Nat) : Nat := rotr32 17 x ^^^ rotr32 19 x ^^^ (x >>> 10)

/-- The 64 SHA-256 round constants (FIPS 180-4, written in decimal). -/
def shaK : List Nat :=
  [1116352408, 1899447441, 3049323471, 3921009573,
   961987163, 1508970993, 2453635748, 2870763221,
   3624381080, 310598401, 607225278, 1426881987,
   1925078388, 2162078206, 2614888103, 3248222580,
   3835390401, 4022224774, 264347078, 604807628,
   770255983, 1249150122, 1555081692, 1996064986,
   2554220882, 2821834349, 2952996808, 3210313671,
   3336571891, 3584528711, 113926993, 338241895,
   666307205, 773529912, 1294757372, 1396182291,
   1695183700, 1986661051, 2177026350, 2456956037,
   2730485921, 2820302411, 3259730800, 3345764771,
   3516065817, 3600352804, 4094571909, 275423344,
   430227734, 506948616, 659060556, 883997877,
   958139571, 1322822218, 1537002063, 1747873779,
   1955562222, 2024104815, 2227730452, 2361852424,
   2428436474, 2756734187, 3204031479, 3329325298]

/-- The SHA-256 initial hash state (FIPS 180-4, written in decimal). -/
def shaH0 : List Nat :=
  [1779033703, 3144134277, 1013904242, 2773480762,
   1359893119, 2600822924, 528734635, 1541459225]

/-- Big-endian byte decomposition of a number into n bytes. -/
def bytesBE (n x : Nat) : List Nat :=
  (List.range n).map (fun i => (x >>> ((n - 1 - i) * 8)) % 256)

/-- SHA-256 message padding: 0x80, zeros to 56 mod 64, then the bit length
as 8 big-endian bytes. -/
def shaPad (msg : List Nat) : List Nat :=
  let len := msg.length
  let padZeros := (119 - len % 64) % 64
  msg ++ [0x80] ++ List.replicate padZeros 0 ++ bytesBE 8 (len * 8)

/-- The 16 big-endian 32-bit words of a 64-byte block. -/
def words16 (block : List Nat) : List Nat :=
  (List.range 16).map (fun i =>
    (block.getD (4*i) 0) <<< 24 ||| (block.getD (4*i+1) 0) <<< 16 |||
    (block.getD (4*i+2) 0) <<< 8 ||| block.getD (4*i+3) 0)

/-- SHA-256 message schedule: extend 16 words to 64. -/
def shaSchedule (ws : List Nat) : List Nat :=
  (List.range 48).foldl
    (fun acc _ => acc ++ [w32 (smallSigma1 (acc.getD (acc.length - 2) 0)
      + acc.getD (acc.length - 7) 0 + smallSigma0 (acc.getD (acc.length - 15) 0)
      + acc.getD (acc.length - 16) 0)]) ws

/-- One SHA-256 compression round. -/
def shaRound (st : Nat × Nat × Nat × Nat × Nat × Nat × Nat × Nat) (kw : Nat × Nat) :
    Nat × Nat × Nat × Nat × Nat × Nat × Nat × Nat :=
  match st with
  | (a, b, c, d, e, f, g, h) =>
    let t1 := w32 (h + bigSigma1 e + shaCh e f g + kw.1 + kw.2)
    let t2 := w32 (bigSigma0 a + shaMaj a b c)
    (w32 (t1 + t2), a, b, c, w32 (d + t1), e, f, g)

/-- SHA-256 compression of one 64-byte block into the running state. -/
def shaCompress (hs : List Nat) (block : List Nat) : List Nat :=
  let ws := shaSchedule (words16 block)
  let init := (hs.getD 0 0, hs.getD 1 0, hs.getD 2 0, hs.getD 3 0,
               hs.getD 4 0, hs.getD 5 0, hs.getD 6 0, hs.getD 7 0)
  match (shaK.zip ws).foldl shaRound init with
  | (a, b, c, d, e, f, g, h) =>
    [w32 (hs.getD 0 0 + a), w32 (hs.getD 1 0 + b), w32 (hs.getD 2 0 + c),
     w32 (hs.getD 3 0 + d), w32 (hs.getD 4 0 + e), w32 (hs.getD 5 0 + f),
     w32 (hs.getD 6 0 + g), w32 (hs.getD 7 0 + h)]

/-- Split a byte list into 64-byte blocks (the fuel bounds the number of
steps; the original length suffices). -/
def chunks64 : Nat → List Nat → List (List Nat)
  | 0, _ => []
  | _ + 1, [] => []
  | fuel + 1, l => l.take 64 :: chunks64 fuel (l.drop 64)

/-- SHA-256 of a byte sequence, as a 32-byte digest. -/
def sha256 (msg : List Nat) : List Nat :=
  let padded := shaPad msg
  ((chunks64 padded.length padded).foldl shaCompress shaH0).flatMap (bytesBE 4)

/-- Lowercase hexadecimal digit. -/
def hexDigit (n : Nat) : Char :=
  if n < 10 then Char.ofNat (48 + n) else Char.ofNat (87 + n)

/-- Lowercase hex encoding of a byte sequence (encoding/hex). -/
def toHex (bytes : List Nat) : String :=
  String.mk (bytes.flatMap (fun b => [hexDigit (b / 16), hexDigit (b % 16)]))

/-- FIPS 180-4 test vector validating the embedded SHA-256: the digest of
"abc". -/
theorem sha256_abc_vector : toHex (sha256 [0x61, 0x62, 0x63]) =
    "ba7816bf8f01cfea414140de5dae2223b00361a396177a9cb410ff61f20015ad" := by decide

/-- UTF-8 encoding of one character. -/
def charUtf8 (c : Char) : List Nat :=
  let n := c.toNat
  if n < 0x80 then [n]
  else if n < 0x800 then [0xC0 ||| (n >>> 6), 0x80 ||| (n &&& 0x3F)]
  else if n < 0x10000 then
    [0xE0 ||| (n >>> 12), 0x80 ||| ((n >>> 6) &&& 0x3F), 0x80 ||| (n &&& 0x3F)]
  else
    [0xF0 ||| (n >>> 18), 0x80 ||| ((n >>> 12) &&& 0x3F),
     0x80 ||| ((n >>> 6) &&& 0x3F), 0x80 ||| (n &&& 0x3F)]

/-- UTF-8 bytes of a string. -/
def utf8Bytes (s : String) : List Nat :=
  s.data.flatMap charUtf8

/-- encoding/json string escaping with Go's default HTML escaping: quote,
backslash, newline, carriage return and tab get two-character escapes,
other control characters a \u00XX escape, the HTML-sensitive characters
and U+2028/U+2029 a six-character escape. -/
def jsonEscapeChar (c : Char) : List Char :=
  if c = '"' then ['\\', '"']
  else if c = '\\' then ['\\', '\\']
  else if c = '\n' then ['\\', 'n']
  else if c = '\r' then ['\\', 'r']
  else if c = '\t' then ['\\', 't']
  else if c.toNat < 0x20 then
    ['\\', 'u', '0', '0', hexDigit (c.toNat / 16), hexDigit (c.toNat % 16)]
  else if c = '<' then ['\\', 'u', '0', '0', '3', 'c']
  else if c = '>' then ['\\', 'u', '0', '0', '3', 'e']
  else if c = '&' then ['\\', 'u', '0', '0', '2', '6']
  else if c.toNat = 0x2028 then ['\\', 'u', '2', '0', '2', '8']
  else if c.toNat = 0x2029 then ['\\', 'u', '2', '0', '2', '9']
  else [c]

/-- A Go JSON string literal for s, including the surrounding quotes. -/
def goJSONString (s : String) : String :=
  "\"" ++ String.mk (s.data.flatMap jsonEscapeChar) ++ "\""

/-- json.Marshal of cache.generateKey's anonymous struct: the six exported
fields in declaration order. -/
def keyJSON (origin destination departureDate returnDate : String)
    (passengers : Int) (cabinClass : String) : String :=
  "\x7b\"Origin\":" ++ goJSONString origin
    ++ ",\"Destination\":" ++ goJSONString destination
    ++ ",\"DepartureDate\":" ++ goJSONString departureDate
    ++ ",\"ReturnDate\":" ++ goJSONString returnDate
    ++ ",\"Passengers\":" ++ toString passengers
    ++ ",\"CabinClass\":" ++ goJSONString cabinClass ++ "\x7d"

/-- cache.generateKey: serialize the canonical six-field subset of the
request (ReturnDate defaulting to "" when absent), hash it with SHA-256,
and prefix the lowercase hex digest with "flight:". -/
def generateKey (req : SearchRequest) : String :=
  "flight:" ++ toHex (sha256 (utf8Bytes (keyJSON req.origin req.destination
    req.departureDate (req.returnDate.getD "") req.passengers req.cabinClass)))

/-- Claim C5: the cache key is a pure function of exactly
(origin, destination, departure_date, return_date|"", passengers,
cabin_class) — two requests agreeing on these six fields share the key no
matter how their filters and sort directives differ — and the key is the
string "flight:" followed by the lowercase hex SHA-256 digest of the
deterministic serialization of that subset. -/
theorem C5_cache_key_pure_function (r1 r2 : SearchRequest)
    (h1 : r1.origin = r2.origin) (h2 : r1.destination = r2.destination)
    (h3 : r1.departureDate = r2.departureDate)
    (h4 : r1.returnDate.getD "" = r2.returnDate.getD "")
    (h5 : r1.passengers = r2.passengers) (h6 : r1.cabinClass = r2.cabinClass) :
    generateKey r1 = generateKey r2 ∧
    (∀ r : SearchRequest, generateKey r =
      "flight:" ++ toHex (sha256 (utf8Bytes (keyJSON r.origin r.destination
        r.departureDate (r.returnDate.getD "") r.passengers r.cabinClass)))) := by
  constructor
  · unfold generateKey
    rw [h1, h2, h3, h4, h5, h6]
  · intro r
    rfl

/-- A concrete request for the C5 witness. -/
def reqA : SearchRequest :=
  { origin := "CGK", destination := "DPS", departureDate := "2025-12-15",
    returnDate := none, passengers := 1, cabinClass := "economy",
    filters := none, sortBy := "best_value", sortOrder := "asc" }

/-- The same canonical six fields as reqA but different filters and sort
directives. -/
def reqB : SearchRequest :=
  { origin := "CGK", destination := "DPS", departureDate := "2025-12-15",
    returnDate := none, passengers := 1, cabinClass := "economy",
    filters := some
      { priceMin := none
        priceMax := some 1500000
        maxStops := some 0
        airlines := ["GA"]
        departureTimeMin := none
        departureTimeMax := none
        arrivalTimeMin := none
        arrivalTimeMax := none
        maxDuration := none },
    sortBy := "price", sortOrder := "desc" }

/-- Concrete instantiation of the C5 theorem: reqA and reqB agree on the
six key fields (and on nothing else of filters/sort), so their cache keys
coincide. -/
theorem C5_cache_key_pure_function_witness :
    reqA.origin = reqB.origin ∧ reqA.returnDate.getD "" = reqB.returnDate.getD "" ∧
    generateKey reqA = generateKey reqB :=
  ⟨rfl, rfl, (C5_cache_key_pure_function reqA reqB rfl rfl rfl rfl rfl rfl).1⟩

/-- ASCII upper-casing of a character (model of strings.ToUpper on the
ASCII strings the program compares). -/
def asciiUpper (c : Char) : Char :=
  if 'a' ≤ c ∧ c ≤ 'z' then Char.ofNat (c.toNat - 32) else c

/-- ASCII upper-casing of a string. -/
def toUpperGo (s : String) : String :=
  String.mk (s.data.map asciiUpper)

/-- timezone.WIB: UTC+7. -/
def WIB : GoLocation := { name := "WIB", offset := 25200 }

/-- timezone.WITA: UTC+8. -/
def WITA : GoLocation := { name := "WITA", offset := 28800 }

/-- timezone.WIT: UTC+9. -/
def WIT : GoLocation := { name := "WIT", offset := 32400 }

/-- Go's UTC location, the default zone of time.Parse. -/
def UTCloc : GoLocation := { name := "UTC", offset := 0 }

/-- timezone.airportTimezones: the closed airport → zone-tag table. -/
def airportTimezones : List (String × String) :=
  [("CGK", "WIB"), ("HLP", "WIB"), ("BDO", "WIB"), ("SUB", "WIB"), ("SRG", "WIB"),
   ("JOG", "WIB"), ("SOC", "WIB"), ("PLM", "WIB"), ("PNK", "WIB"), ("BTH", "WIB"),
   ("PKU", "WIB"), ("PDG", "WIB"), ("KNO", "WIB"), ("BTJ", "WIB"), ("TNJ", "WIB"),
   ("DPS", "WITA"), ("LOP", "WITA"), ("UPG", "WITA"), ("BPN", "WITA"), ("MDC", "WITA"),
   ("KDI", "WITA"), ("PLW", "WITA"), ("TRK", "WITA"),
   ("DJJ", "WIT"), ("TIM", "WIT"), ("BIK", "WIT"), ("MKQ", "WIT"), ("SOQ", "WIT"),
   ("AMQ", "WIT")]

/-- timezone.GetTimezoneByAirport: upper-case the code, look it up, and
default to "WIB" for unknown codes. -/
def GetTimezoneByAirport (code : String) : String :=
  match airportTimezones.lookup (toUpperGo code) with
  | some tz => tz
  | none => "WIB"

/-- timezone.GetLocationByAirport. -/
def GetLocationByAirport (code : String) : GoLocation :=
  match GetTimezoneByAirport code with
  | "WITA" => WITA
  | "WIT" => WIT
  | _ => WIB

/-- timezone.GetLocationByName: the three zone tags and their UTC+N
aliases; any other name falls through time.LoadLocation, which depends on
the host tzdata and is modelled as failing (the fixtures only ever carry
the three tags), hence the WIB default. -/
def GetLocationByName (name : String) : GoLocation :=
  match toUpperGo name with
  | "WITA" => WITA
  | "UTC+8" => WITA
  | "WIT" => WIT
  | "UTC+9" => WIT
  | "WIB" => WIB
  | "UTC+7" => WIB
  | _ => WIB

/-- timezone.ConvertToTimezone: re-express the instant in the airport's
zone. -/
def ConvertToTimezone (t : GoTime) (airportCode : String) : GoTime :=
  t.inLoc (GetLocationByAirport airportCode)

/-- The wall-clock components one timestamp format extracts. -/
structure DateParts where
  y    : Int
  mo   : Int
  d    : Int
  h    : Int
  mi   : Int
  s    : Int
  nsec : Int
  deriving DecidableEq, Repr

/-- Parse exactly four decimal digits (the "2006" year token). -/
def digits4 : List Char → Option (Int × List Char)
  | c1 :: c2 :: c3 :: c4 :: rest =>
    if c1.isDigit ∧ c2.isDigit ∧ c3.isDigit ∧ c4.isDigit then
      some (((c1.toNat - 48 : Int) * 10 + (c2.toNat - 48 : Int)) * 100
        + (c3.toNat - 48 : Int) * 10 + (c4.toNat - 48 : Int), rest)
    else none
  | _ => none

/-- Require one specific character. -/
def expectChar (c : Char) : List Char → Option (List Char)
  | c1 :: rest => if c1 = c then some rest else none
  | [] => none

/-- The leading run of decimal digits and the remainder. -/
def spanDigits (cs : List Char) : List Char × List Char :=
  (cs.takeWhile Char.isDigit, cs.dropWhile Char.isDigit)

/-- Nanoseconds from a fraction digit list (at most 9 digits, scaled). -/
def nsecOfDigits (ds : List Char) : Int :=
  (ds.foldl (fun acc c => acc * 10 + (c.toNat - 48 : Int)) 0)
    * ((10 : Int) ^ (9 - ds.length))

/-- Go time.Parse's implicit fractional seconds: immediately after the
seconds field a period followed by digits is consumed even when the layout
has no fraction; more than nine digits exceed a nanosecond and fail. -/
def parseFracOpt : List Char → Option (Int × List Char)
  | '.' :: c :: rest =>
    if c.isDigit then
      let p := spanDigits (c :: rest)
      if p.1.length ≤ 9 then some (nsecOfDigits p.1, p.2) else none
    else some (0, '.' :: c :: rest)
  | cs => some (0, cs)

/-- Leap-year predicate (Gregorian). -/
def isLeapYear (y : Int) : Bool :=
  y.emod 4 = 0 ∧ (y.emod 100 ≠ 0 ∨ y.emod 400 = 0)

/-- Days in a month, as Go's date validation uses it. -/
def daysInMonth (y mo : Int) : Int :=
  if mo = 2 then (if isLeapYear y then 29 else 28)
  else if mo = 4 ∨ mo = 6 ∨ mo = 9 ∨ mo = 11 then 30
  else 31

/-- Validity of the parsed calendar and clock fields, as Go's time.Parse
checks them (month and day in range for the month, hour below 24, minute
and second below 60). -/
def validParts (p : DateParts) : Bool :=
  1 ≤ p.mo ∧ p.mo ≤ 12 ∧ 1 ≤ p.d ∧ p.d ≤ daysInMonth p.y p.mo ∧
    0 ≤ p.h ∧ p.h ≤ 23 ∧ 0 ≤ p.mi ∧ p.mi ≤ 59 ∧ 0 ≤ p.s ∧ p.s ≤ 59

/-- Assemble and range-check the parsed fields. -/
def checkedParts (y mo d h mi s ns : Int) (rest : List Char) :
    Option (DateParts × List Char) :=
  let p : DateParts := { y := y, mo := mo, d := d, h := h, mi := mi, s := s, nsec := ns }
  if validParts p then some (p, rest) else none

/-- The ":05" seconds tail with Go's implicit fraction. -/
def parseSeconds (y mo d h mi : Int) (cs : List Char) : Option (DateParts × List Char) :=
  (expectChar ':' cs).bind fun cs =>
  (digits2 cs).bind fun sc =>
  (parseFracOpt sc.2).bind fun nsc =>
  checkedParts y mo d h mi sc.1 nsc.1 nsc.2

/-- The shared naive prefix of the program's layouts:
"2006-01-02<sep>15:04[:05[.frac]]", with Go's one-or-two-digit hour token
and two-digit month, day, minute, second tokens, validated. -/
def parseNaiveCore (sep : Char) (withSec : Bool) (cs : List Char) :
    Option (DateParts × List Char) :=
  (digits4 cs).bind fun yc =>
  (expectChar '-' yc.2).bind fun cs =>
  (digits2 cs).bind fun moc =>
  (expectChar '-' moc.2).bind fun cs =>
  (digits2 cs).bind fun dc =>
  (expectChar sep dc.2).bind fun cs =>
  (digits12 cs).bind fun hc =>
  (expectChar ':' hc.2).bind fun cs =>
  (digits2 cs).bind fun mic =>
  if withSec then parseSeconds yc.1 moc.1 dc.1 hc.1 mic.1 mic.2
  else checkedParts yc.1 moc.1 dc.1 hc.1 mic.1 0 0 mic.2

/-- A numeric zone offset "±hh:mm" (the "-07:00" layout token; no range
check, as in Go's generic layout path). -/
def parseOffsetColon : List Char → Option (Int × List Char)
  | sign :: rest =>
    if sign = '+' ∨ sign = '-' then
      (digits2 rest).bind fun hh =>
      (expectChar ':' hh.2).bind fun rest2 =>
      (digits2 rest2).bind fun mm =>
      some ((if sign = '-' then -1 else 1) * (hh.1 * 3600 + mm.1 * 60), mm.2)
    else none
  | [] => none

/-- A numeric zone offset "±hhmm" (the "-0700" layout token). -/
def parseOffsetNoColon : List Char → Option (Int × List Char)
  | sign :: rest =>
    if sign = '+' ∨ sign = '-' then
      (digits2 rest).bind fun hh =>
      (digits2 hh.2).bind fun mm =>
      some ((if sign = '-' then -1 else 1) * (hh.1 * 3600 + mm.1 * 60), mm.2)
    else none
  | [] => none

/-- A naive reading placed in a zone. -/
def mkNaive (p : DateParts) (loc : GoLocation) : GoTime :=
  { year := p.y, month := p.mo, day := p.d, hour := p.h, minute := p.mi,
    second := p.s, nsec := p.nsec, offset := loc.offset, zoneName := loc.name }

/-- A naive reading with a numeric offset (Go attaches a nameless fixed
zone). -/
def withOffset (p : DateParts) (off : Int) : GoTime :=
  { year := p.y, month := p.mo, day := p.d, hour := p.h, minute := p.mi,
    second := p.s, nsec := p.nsec, offset := off, zoneName := "" }

/-- The strict RFC 3339 date-time prefix: like the naive prefix but with a
fixed two-digit hour and a mandatory uppercase T and seconds. -/
def parseRFCCore (cs : List Char) : Option (DateParts × List Char) :=
  (digits4 cs).bind fun yc =>
  (expectChar '-' yc.2).bind fun cs =>
  (digits2 cs).bind fun moc =>
  (expectChar '-' moc.2).bind fun cs =>
  (digits2 cs).bind fun dc =>
  (expectChar 'T' dc.2).bind fun cs =>
  (digits2 cs).bind fun hc =>
  (expectChar ':' hc.2).bind fun cs =>
  (digits2 cs).bind fun mic =>
  parseSeconds yc.1 moc.1 dc.1 hc.1 mic.1 mic.2

/-- The strict RFC 3339 zone tail: a lone Z (UTC) or ±hh:mm with hour and
minute range checks. -/
def rfcZone (p : DateParts) : List Char → Option GoTime
  | ['Z'] => some (mkNaive p UTCloc)
  | sign :: rest =>
    if sign = '+' ∨ sign = '-' then
      (digits2 rest).bind fun hh =>
      (expectChar ':' hh.2).bind fun rest2 =>
      (digits2 rest2).bind fun mm =>
      if mm.2 = [] ∧ hh.1 ≤ 23 ∧ mm.1 ≤ 59 then
        some (withOffset p ((if sign = '-' then -1 else 1) * (hh.1 * 3600 + mm.1 * 60)))
      else none
    else none
  | [] => none

/-- Go's strict RFC 3339 parse (the time.RFC3339 layout is special-cased
by time.Parse). -/
def parseRFC3339 (cs : List Char) : Option GoTime :=
  (parseRFCCore cs).bind fun pr => rfcZone pr.1 pr.2

/-- Layout "2006-01-02T15:04:05-07:00": naive prefix plus a parsed colon
offset consuming the whole string. -/
def fmtOffsetColon (s : String) : Option GoTime :=
  (parseNaiveCore 'T' true s.data).bind fun pr =>
  (parseOffsetColon pr.2).bind fun oc =>
  if oc.2 = [] then some (withOffset pr.1 oc.1) else none

/-- Layout "2006-01-02T15:04:05-0700": naive prefix plus a parsed
colonless offset consuming the whole string. -/
def fmtOffsetNoColon (s : String) : Option GoTime :=
  (parseNaiveCore 'T' true s.data).bind fun pr =>
  (parseOffsetNoColon pr.2).bind fun oc =>
  if oc.2 = [] then some (withOffset pr.1 oc.1) else none

/-- Layouts whose tail is literal text ("+07:00", "+0700" — a plus sign
never starts an offset token in a Go layout — and the lone "Z"): the
input must end with exactly that text, which contributes no zone, so the
wall clock is interpreted in UTC. -/
def fmtLitSuffix (lit : String) (s : String) : Option GoTime :=
  (parseNaiveCore 'T' true s.data).bind fun pr =>
  if pr.2 = lit.data then some (mkNaive pr.1 UTCloc) else none

/-- An offset-free naive layout interpreted in the given zone (UTC for
time.Parse, the hint zone for time.ParseInLocation). -/
def fmtNaive (sep : Char) (withSec : Bool) (loc : GoLocation) (s : String) : Option GoTime :=
  (parseNaiveCore sep withSec s.data).bind fun pr =>
  if pr.2 = [] then some (mkNaive pr.1 loc) else none

/-- The first loop of timezone.ParseTimeWithOffset: the eight time.Parse
formats, in order. -/
def tryFormats1 (s : String) : Option GoTime :=
  (parseRFC3339 s.data).orElse (fun _ =>
  (fmtOffsetColon s).orElse (fun _ =>
  (fmtLitSuffix "+07:00" s).orElse (fun _ =>
  (fmtOffsetNoColon s).orElse (fun _ =>
  (fmtLitSuffix "+0700" s).orElse (fun _ =>
  (fmtLitSuffix "Z" s).orElse (fun _ =>
  (fmtNaive 'T' true UTCloc s).orElse (fun _ =>
  fmtNaive ' ' true UTCloc s)))))))

/-- The second loop of timezone.ParseTimeWithOffset: the four
time.ParseInLocation simple formats against the hint zone, in order. -/
def tryFormats2 (s : String) (loc : GoLocation) : Option GoTime :=
  (fmtNaive 'T' true loc s).orElse (fun _ =>
  (fmtNaive ' ' true loc s).orElse (fun _ =>
  (fmtNaive 'T' false loc s).orElse (fun _ =>
  fmtNaive ' ' false loc s)))

/-- timezone.ParseTimeWithOffset: try the eight offset-bearing and naive
formats; only when all fail and a zone hint is present, try the simple
formats in the hint's zone; otherwise fail. -/
def ParseTimeWithOffset (timeStr tzName : String) : Except String GoTime :=
  match tryFormats1 timeStr with
  | some t => .ok t
  | none =>
    if tzName ≠ "" then
      match tryFormats2 timeStr (GetLocationByName tzName) with
      | some t => .ok t
      | none => .error "unable to parse time string"
    else .error "unable to parse time string"

/-- A zone-hinted naive format always stamps the hint zone on its
result. -/
theorem fmtNaive_zone (sep : Char) (ws : Bool) (loc : GoLocation) (s : String) (t : GoTime)
    (h : fmtNaive sep ws loc s = some t) :
    t.offset = loc.offset ∧ t.zoneName = loc.name := by
  unfold fmtNaive at h
  cases hp : parseNaiveCore sep ws s.data with
  | none => rw [hp] at h; simp at h
  | some pr =>
    rw [hp] at h
    by_cases hr : pr.2 = []
    · simp [hr] at h
      exact ⟨by rw [← h]; rfl, by rw [← h]; rfl⟩
    · simp [hr] at h

/-- A successful second-loop parse comes from one of the four simple
formats. -/
theorem tryFormats2_cases (s : String) (loc : GoLocation) (t : GoTime)
    (h : tryFormats2 s loc = some t) :
    fmtNaive 'T' true loc s = some t ∨ fmtNaive ' ' true loc s = some t ∨
    fmtNaive 'T' false loc s = some t ∨ fmtNaive ' ' false loc s = some t := by
  unfold tryFormats2 at h
  cases hA : fmtNaive 'T' true loc s with
  | some a =>
    rw [hA] at h
    simp [Option.orElse] at h
    exact Or.inl (by simp [h])
  | none =>
    rw [hA] at h
    simp only [Option.orElse] at h
    cases hB : fmtNaive ' ' true loc s with
    | some b =>
      rw [hB] at h
      simp [Option.orElse] at h
      exact Or.inr (Or.inl (by simp [h]))
    | none =>
      rw [hB] at h
      simp only [Option.orElse] at h
      cases hC : fmtNaive 'T' false loc s with
      | some c =>
        rw [hC] at h
        simp [Option.orElse] at h
        exact Or.inr (Or.inr (Or.inl (by simp [h])))
      | none =>
        rw [hC] at h
        simp only [Option.orElse] at h
        exact Or.inr (Or.inr (Or.inr h))

/-- The second loop stamps the hint zone on whatever it returns. -/
theorem tryFormats2_stamps_zone (s : String) (loc : GoLocation) (t : GoTime)
    (h : tryFormats2 s loc = some t) :
    t.offset = loc.offset ∧ t.zoneName = loc.name := by
  rcases tryFormats2_cases s loc t h with h' | h' | h' | h' <;>
    exact fmtNaive_zone _ _ _ _ _ h'

/-- Claim C6 counterexample: the timestamp "2025-12-15T08:00:00" carries
no UTC offset and the non-empty hint "WITA" names UTC+8, yet the parser
returns the wall clock interpreted in UTC (offset 0): the offset-less
seconds-bearing layout "2006-01-02T15:04:05" sits in the first,
hint-ignoring loop, so the hint never selects the zone for such strings. -/
theorem C6_hint_ignored_counterexample :
    ParseTimeWithOffset "2025-12-15T08:00:00" "WITA" =
      .ok { year := 2025, month := 12, day := 15, hour := 8, minute := 0,
            second := 0, nsec := 0, offset := 0, zoneName := "UTC" } ∧
    GetLocationByName "WITA" = WITA ∧ WITA.offset = 28800 ∧
    ParseTimeWithOffset "2025-12-15T08:00:00" "WITA" ≠
      .ok (mkNaive { y := 2025, mo := 12, d := 15, h := 8, mi := 0, s := 0, nsec := 0 } WITA) := by
  refine ⟨by decide, by decide, by decide, by decide⟩

/-- Claim C6, amended: the parser returns an error exactly when no
accepted format matches (none of the eight first-loop formats, and, with a
non-empty hint, none of the four hint-zone formats); a first-loop match is
returned as-is regardless of the hint — in particular offset-less
timestamps with seconds are interpreted in UTC, not in the hint zone —
and only when every first-loop format fails does a non-empty hint select
the zone, the returned value being the naive wall clock stamped with the
hint's zone. -/
theorem C6_parse_fallback_semantics (s hint : String) :
    ((∃ e, ParseTimeWithOffset s hint = .error e) ↔
      (tryFormats1 s = none ∧
        (hint = "" ∨ tryFormats2 s (GetLocationByName hint) = none))) ∧
    (∀ t, tryFormats1 s = some t → ParseTimeWithOffset s hint = .ok t) ∧
    (∀ t, hint ≠ "" → tryFormats1 s = none →
      tryFormats2 s (GetLocationByName hint) = some t →
      ParseTimeWithOffset s hint = .ok t ∧
        t.offset = (GetLocationByName hint).offset ∧
        t.zoneName = (GetLocationByName hint).name) := by
  refine ⟨?_, ?_, ?_⟩
  · unfold ParseTimeWithOffset
    cases h1 : tryFormats1 s with
    | some t => simp
    | none =>
      by_cases hh : hint = ""
      · simp [hh]
      · simp only [hh, ne_eq, not_false_eq_true, if_true]
        cases h2 : tryFormats2 s (GetLocationByName hint) with
        | some t => simp [hh]
        | none => simp [hh]
  · intro t h1
    unfold ParseTimeWithOffset
    rw [h1]
  · intro t hh h1 h2
    refine ⟨?_, tryFormats2_stamps_zone _ _ _ h2⟩
    unfold ParseTimeWithOffset
    rw [h1]
    simp only [hh, ne_eq, not_false_eq_true, if_true]
    rw [h2]

/-- Concrete instantiation of the amended C6 theorem: the minute-precision
naive string "2025-12-15T08:00" fails every first-loop format, so the
hint "WITA" interprets it at UTC+8. -/
theorem C6_parse_fallback_semantics_witness :
    ("WITA" : String) ≠ "" ∧
    tryFormats1 "2025-12-15T08:00" = none ∧
    tryFormats2 "2025-12-15T08:00" (GetLocationByName "WITA") =
      some (mkNaive { y := 2025, mo := 12, d := 15, h := 8, mi := 0, s := 0, nsec := 0 } WITA) ∧
    (ParseTimeWithOffset "2025-12-15T08:00" "WITA" =
      .ok (mkNaive { y := 2025, mo := 12, d := 15, h := 8, mi := 0, s := 0, nsec := 0 } WITA) ∧
     (mkNaive { y := 2025, mo := 12, d := 15, h := 8, mi := 0, s := 0, nsec := 0 } WITA).offset
       = (GetLocationByName "WITA").offset ∧
     (mkNaive { y := 2025, mo := 12, d := 15, h := 8, mi := 0, s := 0, nsec := 0 } WITA).zoneName
       = (GetLocationByName "WITA").name) :=
  ⟨by decide, by decide, by decide,
    (C6_parse_fallback_semantics "2025-12-15T08:00" "WITA").2.2
      (mkNaive { y := 2025, mo := 12, d := 15, h := 8, mi := 0, s := 0, nsec := 0 } WITA)
      (by decide) (by decide) (by decide)⟩

/-- pkg/currency addThousandsSeparator: insert `sep` into the digit string
every three characters counting from the right.  The Go loop fills the
output buffer right to left and writes the separator immediately before
s[i] exactly when pos = n-i is a multiple of 3 and i > 0; read left to
right that places `sep` before index i under the same condition, which is
how it is rendered here.  Strings of at most three characters are returned
unchanged. -/
def addThousandsSeparator (s : String) (sep : Char) : String :=
  let n := s.length
  if n ≤ 3 then s
  else
    String.mk ((List.range n).flatMap (fun i =>
      if 0 < i ∧ (n - i) % 3 = 0 then [sep, s.data.getD i ' ']
      else [s.data.getD i ' ']))

/-- pkg/currency FormatIDR: round the amount half away from zero
(math.Round), take the sign aside, print the absolute integer part in
decimal (fmt.Sprintf %.0f on the non-negative rounded value), insert dot
thousands separators, prefix "IDR " and restore the sign. -/
def currency.FormatIDR (amount : ℚ) : String :=
  let rounded : ℤ := goRoundAway amount
  let negative := rounded < 0
  let intStr := toString rounded.natAbs
  let formatted := addThousandsSeparator intStr '.'
  let result := "IDR " ++ formatted
  if negative then "-" ++ result else result

/-- FormatIDR on 1500000: dot separators are placed every three digits. -/
theorem formatIDR_positive : currency.FormatIDR 1500000 = "IDR 1.500.000" := by
  have h : goRoundAway 1500000 = 1500000 := by unfold goRoundAway; norm_num
  unfold currency.FormatIDR
  rw [h]
  decide

/-- FormatIDR on -2500.5: half rounds away from zero and the sign is
restored in front of the prefix. -/
theorem formatIDR_negative : currency.FormatIDR (-2500.5) = "-IDR 2.501" := by
  have h : goRoundAway (-2500.5) = -2501 := by unfold goRoundAway; norm_num
  unfold currency.FormatIDR
  rw [h]
  decide

/-- A Go regexp whitespace character (the \s class). -/
def isGoSpace (c : Char) : Bool :=
  c = ' ' ∨ c = '\t' ∨ c = '\n' ∨ c = '\r' ∨ c.toNat = 12 ∨ c.toNat = 11

/-- The exact rational value of a "digits[.digits]" capture, as
strconv.ParseFloat reads it (the claims never inspect these values, so the
float64 rounding is modelled away as exactness). -/
def decimalToRat (cs : List Char) : ℚ :=
  let ip := cs.takeWhile Char.isDigit
  let rest := cs.dropWhile Char.isDigit
  let intVal : ℚ := ((ip.foldl (fun a c => a * 10 + (c.toNat - 48)) 0 : ℕ) : ℚ)
  match rest with
  | '.' :: fs =>
    intVal + ((fs.foldl (fun a c => a * 10 + (c.toNat - 48)) 0 : ℕ) : ℚ) / ((10 : ℚ) ^ fs.length)
  | _ => intVal

/-- strconv.Atoi on a digit run with the error ignored, as the travel-time
parser calls it: out-of-range values clamp to the maximum int64 (the
int64 wrap-around of the subsequent multiplication is not modelled; the
duration identity proved about it holds under either reading). -/
def atoiClamped (ds : List Char) : Int :=
  let v := ds.foldl (fun a c => a * 10 + (c.toNat - 48 : Int)) 0
  if v > 9223372036854775807 then 9223372036854775807 else v

/-- Match of the regexp fragment "(digits[.digits]?)\s*kg<word>" at the
head of the list, returning the numeric capture; per leftmost-first
semantics the fractional part is preferred but dropped when keeping it
would make the rest fail. -/
def matchNumKgWordAt (word : List Char) (cs : List Char) : Option (List Char) :=
  let ds := cs.takeWhile Char.isDigit
  if ds.isEmpty then none
  else
    let tryTail := fun (cap : List Char) (rest : List Char) =>
      let rest2 := rest.dropWhile isGoSpace
      match rest2 with
      | 'k' :: 'g' :: tail =>
        if word.isPrefixOf (tail.dropWhile isGoSpace) then some cap else none
      | _ => none
    let rest := cs.drop ds.length
    match rest with
    | '.' :: rest2 =>
      let fs := rest2.takeWhile Char.isDigit
      if fs.isEmpty then tryTail ds rest
      else
        match tryTail (ds ++ '.' :: fs) (rest2.drop fs.length) with
        | some cap => some cap
        | none => tryTail ds rest
    | _ => tryTail ds rest

/-- Leftmost search for the "(digits[.digits]?)\s*kg<word>" pattern. -/
def findNumKgWord (word : List Char) : List Char → Option (List Char)
  | [] => none
  | c :: rest =>
    match matchNumKgWordAt word (c :: rest) with
    | some cap => some cap
    | none => findNumKgWord word rest

/-- providers.parseAirAsiaBaggage: first "N kg" number of the lowercased
string, defaulting to 7. -/
def parseAirAsiaBaggage (s : String) : ℚ :=
  match findNumKgWord [] (toLowerGo s).data with
  | some cap => decimalToRat cap
  | none => 7

/-- providers.parseBaggageWeight (Lion Air): first "N kg" number of the
lowercased string, defaulting to 0. -/
def parseBaggageWeight (s : String) : ℚ :=
  match findNumKgWord [] (toLowerGo s).data with
  | some cap => decimalToRat cap
  | none => 0

/-- providers.parseBatikBaggage: "N kg cabin" and "N kg checked" numbers
of the lowercased string, each defaulting to 0. -/
def parseBatikBaggage (s : String) : ℚ × ℚ :=
  let ls := (toLowerGo s).data
  (match findNumKgWord ['c', 'a', 'b', 'i', 'n'] ls with
   | some cap => decimalToRat cap
   | none => 0,
   match findNumKgWord ['c', 'h', 'e', 'c', 'k', 'e', 'd'] ls with
   | some cap => decimalToRat cap
   | none => 0)

/-- providers.parseTravelTime: the regexp "(?:(\d+)h)?\s*(?:(\d+)m)?"
matched at the start of the string (it always matches, possibly emptily,
at position 0, which is the leftmost match), then hours*60+minutes. -/
def parseTravelTime (s : String) : Int :=
  let cs := s.data
  let ds := cs.takeWhile Char.isDigit
  let hd :=
    if ¬ ds.isEmpty ∧ (cs.drop ds.length).head? = some 'h' then
      (ds, cs.drop (ds.length + 1))
    else (([] : List Char), cs)
  let rest2 := hd.2.dropWhile isGoSpace
  let ms := rest2.takeWhile Char.isDigit
  let mPart :=
    if ¬ ms.isEmpty ∧ (rest2.drop ms.length).head? = some 'm' then ms
    else ([] : List Char)
  atoiClamped hd.1 * 60 + atoiClamped mPart

/-- providers.garuda source record shapes. -/
structure garudaAirline where
  code : String
  name : String
  deriving DecidableEq, Repr

/-- Garuda endpoint record. -/
structure garudaLocation where
  airport  : String
  city     : String
  terminal : String
  time     : String
  deriving DecidableEq, Repr

/-- Garuda layover record. -/
structure garudaLayover where
  airport  : String
  city     : String
  duration : Int
  deriving DecidableEq, Repr

/-- Garuda price record. -/
structure garudaPrice where
  amount   : ℚ
  currency : String
  deriving DecidableEq, Repr

/-- Garuda baggage record (integer kilograms). -/
structure garudaBaggage where
  carryOn : Int
  checked : Int
  deriving DecidableEq, Repr

/-- Garuda flight record: integer duration minutes and an explicit stops
field with a separate layover list. -/
structure garudaFlight where
  flightID     : String
  airline      : garudaAirline
  flightNumber : String
  departure    : garudaLocation
  arrival      : garudaLocation
  duration     : Int
  stops        : Int
  layovers     : List garudaLayover
  price        : garudaPrice
  seats        : Int
  cabinClass   : String
  aircraft     : String
  amenities    : List String
  baggage      : garudaBaggage
  deriving DecidableEq, Repr

/-- providers.GarudaProvider.normalize. -/
def GarudaProvider.normalize (f : garudaFlight) : Except String Flight :=
  match ParseTimeWithOffset f.departure.time "" with
  | .error e => .error e
  | .ok depTime0 =>
    match ParseTimeWithOffset f.arrival.time "" with
    | .error e => .error e
    | .ok arrTime0 =>
      let depTime := ConvertToTimezone depTime0 f.departure.airport
      let arrTime := ConvertToTimezone arrTime0 f.arrival.airport
      let layovers := f.layovers.map (fun l =>
        ({ airport := l.airport, city := l.city, duration := l.duration } : Layover))
      let hours := f.duration.tdiv 60
      let mins := f.duration.tmod 60
      let depTerminal := if f.departure.terminal ≠ "" then some f.departure.terminal else none
      let arrTerminal := if f.arrival.terminal ≠ "" then some f.arrival.terminal else none
      let aircraft := if f.aircraft ≠ "" then some f.aircraft else none
      .ok { id := f.flightID, provider := "garuda",
            airline := { code := f.airline.code, name := f.airline.name },
            flightNumber := f.flightNumber,
            departure := { airport := f.departure.airport, city := f.departure.city,
                           terminal := depTerminal, time := depTime,
                           timezone := GetTimezoneByAirport f.departure.airport },
            arrival := { airport := f.arrival.airport, city := f.arrival.city,
                         terminal := arrTerminal, time := arrTime,
                         timezone := GetTimezoneByAirport f.arrival.airport },
            duration := { hours := hours, minutes := mins, totalMinutes := f.duration },
            stops := f.stops, layovers := layovers,
            price := { amount := f.price.amount, currency := f.price.currency,
                       formatted := currency.FormatIDR f.price.amount },
            availableSeats := f.seats, cabinClass := f.cabinClass,
            aircraft := aircraft, amenities := f.amenities,
            baggage := { cabinKg := (f.baggage.carryOn : ℚ),
                         checkedKg := (f.baggage.checked : ℚ) },
            bestValueScore := 0 }

/-- AirAsia carrier record. -/
structure airasiaCarrier where
  airlineCode : String
  airlineName : String
  deriving DecidableEq, Repr

/-- AirAsia endpoint record. -/
structure airasiaLocation where
  iata     : String
  cityName : String
  deriving DecidableEq, Repr

/-- AirAsia stop record. -/
structure airasiaStop where
  stopAirport     : String
  stopCity        : String
  stopDurationMin : Int
  deriving DecidableEq, Repr

/-- AirAsia flight record: fractional duration hours and a boolean
direct-flight flag next to the stop list (the Go fields From and To are
named fromLoc and toLoc here because `from` is reserved in Lean). -/
structure airasiaFlight where
  offerID       : String
  carrier       : airasiaCarrier
  flightNum     : String
  fromLoc       : airasiaLocation
  toLoc         : airasiaLocation
  departAt      : String
  arriveAt      : String
  durationHours : ℚ
  directFlight  : Bool
  stops         : List airasiaStop
  priceIDR      : ℚ
  seatsLeft     : Int
  travelClass   : String
  equipment     : String
  perks         : List String
  baggageInfo   : String
  deriving DecidableEq, Repr

/-- providers.AirAsiaProvider.normalize. -/
def AirAsiaProvider.normalize (f : airasiaFlight) : Except String Flight :=
  match ParseTimeWithOffset f.departAt "" with
  | .error e => .error e
  | .ok depTime0 =>
    match ParseTimeWithOffset f.arriveAt "" with
    | .error e => .error e
    | .ok arrTime0 =>
      let depTime := ConvertToTimezone depTime0 f.fromLoc.iata
      let arrTime := ConvertToTimezone arrTime0 f.toLoc.iata
      let totalMinutes : Int := goRoundAway (f.durationHours * 60)
      let hours := totalMinutes.tdiv 60
      let mins := totalMinutes.tmod 60
      let stops : Int := if f.directFlight then 0 else (f.stops.length : Int)
      let layovers := f.stops.map (fun s =>
        ({ airport := s.stopAirport, city := s.stopCity, duration := s.stopDurationMin } : Layover))
      let cabinKg := parseAirAsiaBaggage f.baggageInfo
      let aircraft := if f.equipment ≠ "" then some f.equipment else none
      .ok { id := f.offerID, provider := "airasia",
            airline := { code := f.carrier.airlineCode, name := f.carrier.airlineName },
            flightNumber := f.flightNum,
            departure := { airport := f.fromLoc.iata, city := f.fromLoc.cityName,
                           terminal := none, time := depTime,
                           timezone := GetTimezoneByAirport f.fromLoc.iata },
            arrival := { airport := f.toLoc.iata, city := f.toLoc.cityName,
                         terminal := none, time := arrTime,
                         timezone := GetTimezoneByAirport f.toLoc.iata },
            duration := { hours := hours, minutes := mins, totalMinutes := totalMinutes },
            stops := stops, layovers := layovers,
            price := { amount := f.priceIDR, currency := "IDR",
                       formatted := currency.FormatIDR f.priceIDR },
            availableSeats := f.seatsLeft, cabinClass := f.travelClass,
            aircraft := aircraft, amenities := f.perks,
            baggage := { cabinKg := cabinKg, checkedKg := 0 },
            bestValueScore := 0 }

/-- Batik Air carrier record. -/
structure batikCarrier where
  carrierCode : String
  carrierName : String
  deriving DecidableEq, Repr

/-- Batik Air departure endpoint record. -/
structure batikLocationInfo where
  airportCode   : String
  cityName      : String
  terminalNo    : String
  departureTime : String
  deriving DecidableEq, Repr

/-- Batik Air arrival endpoint record. -/
structure batikArrivalInfo where
  airportCode : String
  cityName    : String
  terminalNo  : String
  arrivalTime : String
  deriving DecidableEq, Repr

/-- Batik Air connection record. -/
structure batikConnection where
  airport        : String
  city           : String
  layoverMinutes : Int
  deriving DecidableEq, Repr

/-- Batik Air fare record. -/
structure batikFare where
  totalPrice   : ℚ
  currencyCode : String
  deriving DecidableEq, Repr

/-- Batik Air flight record: "Nh Mm" travel time, an explicit stop count
and a separate connection list. -/
structure batikFlight where
  flightID         : String
  operatingCarrier : batikCarrier
  flightNo         : String
  departureInfo    : batikLocationInfo
  arrivalInfo      : batikArrivalInfo
  travelTime       : String
  numberOfStops    : Int
  connectionPoints : List batikConnection
  fare             : batikFare
  seatsAvailable   : Int
  cabinType        : String
  aircraftType     : String
  includedServices : List String
  baggageAllowance : String
  deriving DecidableEq, Repr

/-- providers.BatikAirProvider.normalize. -/
def BatikAirProvider.normalize (f : batikFlight) : Except String Flight :=
  match ParseTimeWithOffset f.departureInfo.departureTime "" with
  | .error e => .error e
  | .ok depTime0 =>
    match ParseTimeWithOffset f.arrivalInfo.arrivalTime "" with
    | .error e => .error e
    | .ok arrTime0 =>
      let depTime := ConvertToTimezone depTime0 f.departureInfo.airportCode
      let arrTime := ConvertToTimezone arrTime0 f.arrivalInfo.airportCode
      let totalMinutes := parseTravelTime f.travelTime
      let hours := totalMinutes.tdiv 60
      let mins := totalMinutes.tmod 60
      let layovers := f.connectionPoints.map (fun c =>
        ({ airport := c.airport, city := c.city, duration := c.layoverMinutes } : Layover))
      let kgs := parseBatikBaggage f.baggageAllowance
      let depTerminal := if f.departureInfo.terminalNo ≠ "" then some f.departureInfo.terminalNo else none
      let arrTerminal := if f.arrivalInfo.terminalNo ≠ "" then some f.arrivalInfo.terminalNo else none
      let aircraft := if f.aircraftType ≠ "" then some f.aircraftType else none
      .ok { id := f.flightID, provider := "batikair",
            airline := { code := f.operatingCarrier.carrierCode,
                         name := f.operatingCarrier.carrierName },
            flightNumber := f.flightNo,
            departure := { airport := f.departureInfo.airportCode,
                           city := f.departureInfo.cityName,
                           terminal := depTerminal, time := depTime,
                           timezone := GetTimezoneByAirport f.departureInfo.airportCode },
            arrival := { airport := f.arrivalInfo.airportCode,
                         city := f.arrivalInfo.cityName,
                         terminal := arrTerminal, time := arrTime,
                         timezone := GetTimezoneByAirport f.arrivalInfo.airportCode },
            duration := { hours := hours, minutes := mins, totalMinutes := totalMinutes },
            stops := f.numberOfStops, layovers := layovers,
            price := { amount := f.fare.totalPrice, currency := f.fare.currencyCode,
                       formatted := currency.FormatIDR f.fare.totalPrice },
            availableSeats := f.seatsAvailable, cabinClass := f.cabinType,
            aircraft := aircraft, amenities := f.includedServices,
            baggage := { cabinKg := kgs.1, checkedKg := kgs.2 },
            bestValueScore := 0 }

/-- Lion Air carrier record. -/
structure lionCarrier where
  iata     : String
  fullName : String
  deriving DecidableEq, Repr

/-- Lion Air airport record. -/
structure lionAirport where
  code : String
  name : String
  gate : String
  deriving DecidableEq, Repr

/-- Lion Air schedule record: naive local times plus a zone tag. -/
structure lionSchedule where
  departure : String
  arrival   : String
  timezone  : String
  deriving DecidableEq, Repr

/-- Lion Air stopover record. -/
structure lionStopover where
  airportCode : String
  cityName    : String
  waitTime    : Int
  deriving DecidableEq, Repr

/-- Lion Air pricing record. -/
structure lionPricing where
  total    : ℚ
  currency : String
  deriving DecidableEq, Repr

/-- Lion Air baggage record (free-form strings). -/
structure lionBaggage where
  cabin : String
  hold  : String
  deriving DecidableEq, Repr

/-- Lion Air flight record: integer flight-time minutes, a boolean
is_direct flag next to a stop count and a stopover list. -/
structure lionFlight where
  id          : String
  carrier     : lionCarrier
  origin      : lionAirport
  destination : lionAirport
  flightCode  : String
  schedule    : lionSchedule
  flightTime  : Int
  isDirect    : Bool
  stopCount   : Int
  stopovers   : List lionStopover
  pricing     : lionPricing
  seats       : Int
  travelClass : String
  planeType   : String
  services    : List String
  baggage     : lionBaggage
  deriving DecidableEq, Repr

/-- providers.LionAirProvider.normalize.  Note the departure time keeps
the zone the parse produced; only the arrival time is converted to the
destination airport's zone, as in the source. -/
def LionAirProvider.normalize (f : lionFlight) : Except String Flight :=
  match ParseTimeWithOffset f.schedule.departure f.schedule.timezone with
  | .error e => .error e
  | .ok depTime =>
    match ParseTimeWithOffset f.schedule.arrival f.schedule.timezone with
    | .error e => .error e
    | .ok arrTime0 =>
      let arrTime := ConvertToTimezone arrTime0 f.destination.code
      let stops : Int := if f.isDirect then 0 else f.stopCount
      let layovers := f.stopovers.map (fun s =>
        ({ airport := s.airportCode, city := s.cityName, duration := s.waitTime } : Layover))
      let hours := f.flightTime.tdiv 60
      let mins := f.flightTime.tmod 60
      let cabinKg := parseBaggageWeight f.baggage.cabin
      let checkedKg := parseBaggageWeight f.baggage.hold
      let depTerminal := if f.origin.gate ≠ "" then some f.origin.gate else none
      let arrTerminal := if f.destination.gate ≠ "" then some f.destination.gate else none
      let aircraft := if f.planeType ≠ "" then some f.planeType else none
      .ok { id := f.id, provider := "lionair",
            airline := { code := f.carrier.iata, name := f.carrier.fullName },
            flightNumber := f.flightCode,
            departure := { airport := f.origin.code, city := f.origin.name,
                           terminal := depTerminal, time := depTime,
                           timezone := GetTimezoneByAirport f.origin.code },
            arrival := { airport := f.destination.code, city := f.destination.name,
                         terminal := arrTerminal, time := arrTime,
                         timezone := GetTimezoneByAirport f.destination.code },
            duration := { hours := hours, minutes := mins, totalMinutes := f.flightTime },
            stops := stops, layovers := layovers,
            price := { amount := f.pricing.total, currency := f.pricing.currency,
                       formatted := currency.FormatIDR f.pricing.total },
            availableSeats := f.seats, cabinClass := f.travelClass,
            aircraft := aircraft, amenities := f.services,
            baggage := { cabinKg := cabinKg, checkedKg := checkedKg },
            bestValueScore := 0 }

/-- Go's truncated integer division identity, the shape every adapter's
duration decomposition uses. -/
theorem tdiv_tmod_identity (tm : Int) : tm = tm.tdiv 60 * 60 + tm.tmod 60 := by
  have h := Int.tdiv_add_tmod tm 60
  linarith

/-- Claim C7: every canonical flight any of the four adapters produces
satisfies duration.total_minutes = duration.hours * 60 + duration.minutes,
across all duration encodings (integer minutes for Garuda and Lion,
fractional hours for AirAsia, "Nh Mm" strings for Batik): each adapter
derives hours and minutes from total minutes by truncated division, so the
identity is forced. -/
theorem C7_duration_invariant :
    (∀ (f : garudaFlight) (fl : Flight), GarudaProvider.normalize f = .ok fl →
      fl.duration.totalMinutes = fl.duration.hours * 60 + fl.duration.minutes) ∧
    (∀ (f : airasiaFlight) (fl : Flight), AirAsiaProvider.normalize f = .ok fl →
      fl.duration.totalMinutes = fl.duration.hours * 60 + fl.duration.minutes) ∧
    (∀ (f : batikFlight) (fl : Flight), BatikAirProvider.normalize f = .ok fl →
      fl.duration.totalMinutes = fl.duration.hours * 60 + fl.duration.minutes) ∧
    (∀ (f : lionFlight) (fl : Flight), LionAirProvider.normalize f = .ok fl →
      fl.duration.totalMinutes = fl.duration.hours * 60 + fl.duration.minutes) := by
  refine ⟨?_, ?_, ?_, ?_⟩
  · intro f fl h
    unfold GarudaProvider.normalize at h
    cases h1 : ParseTimeWithOffset f.departure.time "" with
    | error e => rw [h1] at h; simp at h
    | ok t1 =>
      rw [h1] at h
      cases h2 : ParseTimeWithOffset f.arrival.time "" with
      | error e => rw [h2] at h; simp at h
      | ok t2 =>
        rw [h2] at h
        simp only [Except.ok.injEq] at h
        subst h
        exact tdiv_tmod_identity _
  · intro f fl h
    unfold AirAsiaProvider.normalize at h
    cases h1 : ParseTimeWithOffset f.departAt "" with
    | error e => rw [h1] at h; simp at h
    | ok t1 =>
      rw [h1] at h
      cases h2 : ParseTimeWithOffset f.arriveAt "" with
      | error e => rw [h2] at h; simp at h
      | ok t2 =>
        rw [h2] at h
        simp only [Except.ok.injEq] at h
        subst h
        exact tdiv_tmod_identity _
  · intro f fl h
    unfold BatikAirProvider.normalize at h
    cases h1 : ParseTimeWithOffset f.departureInfo.departureTime "" with
    | error e => rw [h1] at h; simp at h
    | ok t1 =>
      rw [h1] at h
      cases h2 : ParseTimeWithOffset f.arrivalInfo.arrivalTime "" with
      | error e => rw [h2] at h; simp at h
      | ok t2 =>
        rw [h2] at h
        simp only [Except.ok.injEq] at h
        subst h
        exact tdiv_tmod_identity _
  · intro f fl h
    unfold LionAirProvider.normalize at h
    cases h1 : ParseTimeWithOffset f.schedule.departure f.schedule.timezone with
    | error e => rw [h1] at h; simp at h
    | ok t1 =>
      rw [h1] at h
      cases h2 : ParseTimeWithOffset f.schedule.arrival f.schedule.timezone with
      | error e => rw [h2] at h; simp at h
      | ok t2 =>
        rw [h2] at h
        simp only [Except.ok.injEq] at h
        subst h
        exact tdiv_tmod_identity _

/-- A concrete Garuda source record with valid timestamps. -/
def recG : garudaFlight :=
  { flightID := "GA1", airline := { code := "GA", name := "Garuda Indonesia" },
    flightNumber := "GA-402",
    departure := { airport := "CGK", city := "Jakarta", terminal := "3",
                   time := "2025-12-15T08:00:00+07:00" },
    arrival := { airport := "DPS", city := "Bali", terminal := "I",
                 time := "2025-12-15T11:05:00+08:00" },
    duration := 125, stops := 0, layovers := [],
    price := { amount := 1500000, currency := "IDR" },
    seats := 20, cabinClass := "economy", aircraft := "B737",
    amenities := [], baggage := { carryOn := 7, checked := 20 } }

/-- Concrete instantiation of the C7 theorem: the Garuda adapter's output
on recG (125 minutes) satisfies the duration identity. -/
theorem C7_duration_invariant_witness :
    (GarudaProvider.normalize recG).map
      (fun fl => decide (fl.duration.totalMinutes
        = fl.duration.hours * 60 + fl.duration.minutes)) = .ok true := by
  cases hEq : GarudaProvider.normalize recG with
  | error e =>
    have hok : (GarudaProvider.normalize recG).isOk = true := rfl
    rw [hEq] at hok
    simp [Except.isOk, Except.toBool] at hok
  | ok fl =>
    have hinv := C7_duration_invariant.1 recG fl hEq
    simp only [Except.map]
    rw [decide_eq_true hinv]

/-- A concrete AirAsia record carrying the direct-flight flag together
with a non-empty stop list. -/
def recDirect : airasiaFlight :=
  { offerID := "AA1", carrier := { airlineCode := "QZ", airlineName := "AirAsia" },
    flightNum := "QZ-700",
    fromLoc := { iata := "CGK", cityName := "Jakarta" },
    toLoc := { iata := "DPS", cityName := "Bali" },
    departAt := "2025-12-15T08:00:00+07:00", arriveAt := "2025-12-15T11:00:00+08:00",
    durationHours := 2, directFlight := true,
    stops := [{ stopAirport := "SUB", stopCity := "Surabaya", stopDurationMin := 45 }],
    priceIDR := 950000, seatsLeft := 5, travelClass := "economy",
    equipment := "A320", perks := [], baggageInfo := "" }

/-- Claim C8 counterexample: the AirAsia adapter, on a record whose
direct_flight flag is true while its stop list is non-empty, zeroes the
stop count but keeps the layovers built from the full list, producing a
canonical flight with 1 layover and 0 stops — len(layovers) ≤ stops
fails exactly on the case the claim includes. -/
theorem C8_direct_flag_counterexample :
    recDirect.directFlight = true ∧ recDirect.stops.length = 1 ∧
    (AirAsiaProvider.normalize recDirect).map
      (fun fl => ((fl.layovers.length : Int), fl.stops)) = .ok (1, 0) ∧
    ¬ ((1 : Int) ≤ 0) := by
  refine ⟨rfl, rfl, by decide, by decide⟩

/-- Claim C8, amended: the adapters bound layovers by stops only under the
conditions the source actually enforces — AirAsia gives equality whenever
the direct flag is false (stops is the stop-list length and layovers are
built from the same list); Lion needs the flag false and a stop count at
least the stopover-list length; Batik and Garuda copy both fields, so the
bound holds iff the source record satisfies it.  When a record combines a
direct flag with a non-empty stop list, stops is zeroed while the
layovers are kept, and the bound fails. -/
theorem C8_layovers_bound :
    (∀ (f : airasiaFlight) (fl : Flight), f.directFlight = false →
      AirAsiaProvider.normalize f = .ok fl → (fl.layovers.length : Int) = fl.stops) ∧
    (∀ (f : lionFlight) (fl : Flight), f.isDirect = false →
      (f.stopovers.length : Int) ≤ f.stopCount →
      LionAirProvider.normalize f = .ok fl → (fl.layovers.length : Int) ≤ fl.stops) ∧
    (∀ (f : batikFlight) (fl : Flight),
      (f.connectionPoints.length : Int) ≤ f.numberOfStops →
      BatikAirProvider.normalize f = .ok fl → (fl.layovers.length : Int) ≤ fl.stops) ∧
    (∀ (f : garudaFlight) (fl : Flight), (f.layovers.length : Int) ≤ f.stops →
      GarudaProvider.normalize f = .ok fl → (fl.layovers.length : Int) ≤ fl.stops) := by
  refine ⟨?_, ?_, ?_, ?_⟩
  · intro f fl hdf h
    unfold AirAsiaProvider.normalize at h
    cases h1 : ParseTimeWithOffset f.departAt "" with
    | error e => rw [h1] at h; simp at h
    | ok t1 =>
      rw [h1] at h
      cases h2 : ParseTimeWithOffset f.arriveAt "" with
      | error e => rw [h2] at h; simp at h
      | ok t2 =>
        rw [h2] at h
        simp only [Except.ok.injEq] at h
        subst h
        simp [hdf]
  · intro f fl hdf hcnt h
    unfold LionAirProvider.normalize at h
    cases h1 : ParseTimeWithOffset f.schedule.departure f.schedule.timezone with
    | error e => rw [h1] at h; simp at h
    | ok t1 =>
      rw [h1] at h
      cases h2 : ParseTimeWithOffset f.schedule.arrival f.schedule.timezone with
      | error e => rw [h2] at h; simp at h
      | ok t2 =>
        rw [h2] at h
        simp only [Except.ok.injEq] at h
        subst h
        simpa [hdf] using hcnt
  · intro f fl hcnt h
    unfold BatikAirProvider.normalize at h
    cases h1 : ParseTimeWithOffset f.departureInfo.departureTime "" with
    | error e => rw [h1] at h; simp at h
    | ok t1 =>
      rw [h1] at h
      cases h2 : ParseTimeWithOffset f.arrivalInfo.arrivalTime "" with
      | error e => rw [h2] at h; simp at h
      | ok t2 =>
        rw [h2] at h
        simp only [Except.ok.injEq] at h
        subst h
        simpa using hcnt
  · intro f fl hcnt h
    unfold GarudaProvider.normalize at h
    cases h1 : ParseTimeWithOffset f.departure.time "" with
    | error e => rw [h1] at h; simp at h
    | ok t1 =>
      rw [h1] at h
      cases h2 : ParseTimeWithOffset f.arrival.time "" with
      | error e => rw [h2] at h; simp at h
      | ok t2 =>
        rw [h2] at h
        simp only [Except.ok.injEq] at h
        subst h
        simpa using hcnt

/-- The same AirAsia record with the direct flag cleared. -/
def recNonDirect : airasiaFlight :=
  { recDirect with directFlight := false }

/-- Concrete instantiation of the amended C8 theorem: with the direct flag
false the AirAsia adapter emits exactly as many layovers as stops. -/
theorem C8_layovers_bound_witness :
    recNonDirect.directFlight = false ∧
    (AirAsiaProvider.normalize recNonDirect).map
      (fun fl => decide ((fl.layovers.length : Int) = fl.stops)) = .ok true := by
  refine ⟨rfl, ?_⟩
  cases hEq : AirAsiaProvider.normalize recNonDirect with
  | error e =>
    have hok : (AirAsiaProvider.normalize recNonDirect).isOk = true := rfl
    rw [hEq] at hok
    simp [Except.isOk, Except.toBool] at hok
  | ok fl =>
    have hinv := C8_layovers_bound.1 recNonDirect fl rfl hEq
    simp only [Except.map]
    rw [decide_eq_true hinv]

end Flightsearch
